import Mathlib

/-!
Shallow embedding of `xmlimports_python_script.py` (class `XMLImporter`),
an XML-to-Neo4j import pipeline.  The parsed XML document (as produced by
`xmltodict.parse`) is modelled by `XmlNeo.XVal`; Python dictionary/list/string
indexing, `.get`, membership and iteration are modelled with their Python
semantics, including the exceptions they raise.  Each sub-importer
(`insert_protein`, `insert_gene`, `insert_feature`, `insert_reference`,
`insert_author`, `insert_fullname`, `insert_organism`) is translated into a
function producing the trace of events it performs: driver open/close,
session open/close, and the parameterized Cypher write statements it issues,
together with the Python exception (if any) that aborts it.
-/

namespace XmlNeo

/-- A value of the parsed document: `xmltodict` produces strings, dictionaries
(key order preserved) and lists. -/
inductive XVal where
  | str : String → XVal
  | obj : List (String × XVal) → XVal
  | arr : List XVal → XVal

/-- Python exceptions that the importer's document navigation can raise. -/
inductive PyErr where
  | keyError : String → PyErr
  | typeError : PyErr
  | attributeError : PyErr
deriving DecidableEq

/-- Python subscript `v[k]` with a string key: dictionary lookup
(KeyError when the key is missing), TypeError on strings and lists. -/
def getItem : XVal → String → Except PyErr XVal
  | XVal.obj fs, k =>
    match fs.lookup k with
    | some v => Except.ok v
    | none => Except.error (PyErr.keyError k)
  | XVal.str _, _ => Except.error PyErr.typeError
  | XVal.arr _, _ => Except.error PyErr.typeError

/-- Python `v.get(k, d)`: only dictionaries have `.get`
(AttributeError otherwise). -/
def getDefault : XVal → String → XVal → Except PyErr XVal
  | XVal.obj fs, k, d =>
    match fs.lookup k with
    | some v => Except.ok v
    | none => Except.ok d
  | XVal.str _, _, _ => Except.error PyErr.attributeError
  | XVal.arr _, _, _ => Except.error PyErr.attributeError

/-- Python `v.get(k)` returning `None` when absent. -/
def getOpt : XVal → String → Except PyErr (Option XVal)
  | XVal.obj fs, k => Except.ok (fs.lookup k)
  | XVal.str _, _ => Except.error PyErr.attributeError
  | XVal.arr _, _ => Except.error PyErr.attributeError

/-- Python iteration `for x in v`: a list yields its elements, a dictionary
yields its keys, a string yields its one-character substrings. -/
def pyIter : XVal → List XVal
  | XVal.arr l => l
  | XVal.obj fs => fs.map (fun p => XVal.str p.1)
  | XVal.str s => s.toList.map (fun c => XVal.str (String.mk [c]))

/-- Python `v == "s"` for a string literal on the right: values that are not
strings compare unequal without error. -/
def xeqStr : XVal → String → Bool
  | XVal.str s, t => s == t
  | _, _ => false

/-- Python `x == "s"` where `x` is `None` or a value (result of `.get`). -/
def optEqStr : Option XVal → String → Bool
  | some v, t => xeqStr v t
  | none, _ => false

/-- Decide whether the first character list is a prefix of the second. -/
def listPre : List Char → List Char → Bool
  | [], _ => true
  | _ :: _, [] => false
  | a :: as, b :: bs => a == b && listPre as bs

/-- Decide whether the first character list occurs contiguously inside the
second. -/
def listInf : List Char → List Char → Bool
  | n, [] => listPre n []
  | n, c :: cs => listPre n (c :: cs) || listInf n cs

/-- Substring test on strings. -/
def strHas (hay needle : String) : Bool := listInf needle.toList hay.toList

/-- Prefix test on strings. -/
def strStarts (s p : String) : Bool := listPre p.toList s.toList

/-- Python `k in v`: key membership for dictionaries, substring test for
strings, element membership for lists. -/
def pyContains : XVal → String → Bool
  | XVal.obj fs, k => (fs.lookup k).isSome
  | XVal.str s, k => strHas s k
  | XVal.arr l, k => l.any (fun v => xeqStr v k)

/-- Navigation through a chain of subscripts `v[k1][k2]...`. -/
def navPath : XVal → List String → Except PyErr XVal
  | v, [] => Except.ok v
  | v, k :: ks =>
    match getItem v k with
    | Except.ok w => navPath w ks
    | Except.error e => Except.error e

/-- The parameterized write statements issued through `session.run`.
Each constructor records the statement template and its parameter values
(which are arbitrary Python values taken from the document). -/
inductive Stmt where
  | createProtein : XVal → Stmt
  | createGene : XVal → Stmt
  | relFromGene : XVal → XVal → Stmt
  | createFeature : XVal → XVal → Stmt
  | relHasFeature : XVal → XVal → XVal → Stmt
  | createReference : XVal → XVal → XVal → Stmt
  | relHasReference : XVal → XVal → XVal → XVal → Stmt
  | createAuthor : XVal → Stmt
  | relHasAuthor : XVal → XVal → XVal → XVal → Stmt
  | createFullName : XVal → Stmt
  | relHasFullName : XVal → XVal → Stmt
  | createOrganism : XVal → XVal → Stmt
  | relInOrganism : XVal → XVal → XVal → Stmt

/-- The names of the sub-importer methods of `XMLImporter`. -/
inductive ImpName where
  | protein | gene | feature | reference | author | fullname | organism
deriving DecidableEq

/-- Events performed by a sub-importer: entry into the sub-importer,
driver open/close (`open_database` / `close_database`), session
open/close (the `with driver.session()` block) and write statements. -/
inductive Event where
  | call : ImpName → Event
  | openDriver : Event
  | closeDriver : Event
  | openSession : Event
  | closeSession : Event
  | write : Stmt → Event

/-- A trace: the events performed, and the exception (if any) that
propagated out. -/
abbrev Trace := List Event × Option PyErr

/-- The skeleton shared by every sub-importer:
`driver = self.open_database()`, `with driver.session() as session: body`,
`self.close_database(driver)`.  The `with` block closes the session on both
the success and the exception path, but `close_database` is only reached
when the body did not raise. -/
def wrapE (n : ImpName) : Trace → Trace
  | (es, none) =>
    (Event.call n :: Event.openDriver :: Event.openSession ::
      (es ++ [Event.closeSession, Event.closeDriver]), none)
  | (es, some e) =>
    (Event.call n :: Event.openDriver :: Event.openSession ::
      (es ++ [Event.closeSession]), some e)

/-- Wrap a body that only issues write statements. -/
def wrapS (n : ImpName) (b : List Stmt × Option PyErr) : Trace :=
  wrapE n (b.1.map Event.write, b.2)

/-- Python `for x in elems: step x` where each iteration may issue
statements/events and may raise, aborting the loop. -/
def pyFor {α : Type} (f : XVal → List α × Option PyErr) :
    List XVal → List α × Option PyErr
  | [] => ([], none)
  | x :: xs =>
    match f x with
    | (s, some e) => (s, some e)
    | (s, none) =>
      let r := pyFor f xs
      (s ++ r.1, r.2)

/-- Navigate to the sub-tree, then loop over its Python iteration. -/
def loopBody {α : Type} (nav : Except PyErr XVal)
    (f : XVal → List α × Option PyErr) : List α × Option PyErr :=
  match nav with
  | Except.error e => ([], some e)
  | Except.ok v => pyFor f (pyIter v)

/-- The constant root-entity identifier used by every sub-importer. -/
def qProtein : XVal := XVal.str "Q9Y261"

/-- `XMLImporter.insert_protein`: creates the single Protein node. -/
def insert_protein (_doc : XVal) : Trace :=
  wrapS ImpName.protein ([Stmt.createProtein qProtein], none)

/-- The selection predicate of `insert_gene`, with Python's evaluation
order and short-circuiting:
`(gene['@type'] == 'synonym' and gene['#text'] == 'HNF3B') or
 (gene['@type'] == 'primary' and gene['#text'] == 'FOXA2')`. -/
def genePred (g : XVal) : Except PyErr Bool :=
  match getItem g "@type" with
  | Except.error e => Except.error e
  | Except.ok t1 =>
    match
      (if xeqStr t1 "synonym" then
        match getItem g "#text" with
        | Except.error e => Except.error e
        | Except.ok x => Except.ok (xeqStr x "HNF3B")
      else
        Except.ok false) with
    | Except.error e => Except.error e
    | Except.ok true => Except.ok true
    | Except.ok false =>
      match getItem g "@type" with
      | Except.error e => Except.error e
      | Except.ok t2 =>
        if xeqStr t2 "primary" then
          match getItem g "#text" with
          | Except.error e => Except.error e
          | Except.ok x => Except.ok (xeqStr x "FOXA2")
        else
          Except.ok false

/-- One iteration of the `insert_gene` loop. -/
def geneStep (g : XVal) : List Stmt × Option PyErr :=
  match genePred g with
  | Except.error e => ([], some e)
  | Except.ok false => ([], none)
  | Except.ok true =>
    match getItem g "#text" with
    | Except.error e => ([], some e)
    | Except.ok n => ([Stmt.createGene n, Stmt.relFromGene qProtein n], none)

/-- `XMLImporter.insert_gene`. -/
def insert_gene (doc : XVal) : Trace :=
  wrapS ImpName.gene
    (loopBody (navPath doc ["uniprot", "entry", "gene", "name"]) geneStep)

/-- The positional predicate of `insert_feature`:
`feature['location'].get('position', {}).get('@position') == '307'`. -/
def featPred (f : XVal) : Except PyErr Bool :=
  match getItem f "location" with
  | Except.error e => Except.error e
  | Except.ok loc =>
    match getDefault loc "position" (XVal.obj []) with
    | Except.error e => Except.error e
    | Except.ok pos =>
      match getOpt pos "@position" with
      | Except.error e => Except.error e
      | Except.ok pp => Except.ok (optEqStr pp "307")

/-- One iteration of the `insert_feature` loop. -/
def featStep (f : XVal) : List Stmt × Option PyErr :=
  match featPred f with
  | Except.error e => ([], some e)
  | Except.ok false => ([], none)
  | Except.ok true =>
    match getItem f "@description" with
    | Except.error e => ([], some e)
    | Except.ok n =>
      match getItem f "@type" with
      | Except.error e => ([], some e)
      | Except.ok t =>
        if xeqStr n "Phosphoserine" && xeqStr t "modified residue" then
          ([Stmt.createFeature n t, Stmt.relHasFeature qProtein n t], none)
        else
          ([], none)

/-- `XMLImporter.insert_feature`. -/
def insert_feature (doc : XVal) : Trace :=
  wrapS ImpName.feature
    (loopBody (navPath doc ["uniprot", "entry", "feature"]) featStep)

/-- One iteration of the `insert_author` loop over the person list. -/
def authorStep (i t a : XVal) (p : XVal) : List Stmt × Option PyErr :=
  match getItem p "@name" with
  | Except.error e => ([], some e)
  | Except.ok n => ([Stmt.createAuthor n, Stmt.relHasAuthor i t a n], none)

/-- The body of `insert_author`:
`if 'person' in authorList: for person in authorList['person']: ...`. -/
def authorBody (al i t a : XVal) : List Stmt × Option PyErr :=
  if pyContains al "person" then
    match getItem al "person" with
    | Except.error e => ([], some e)
    | Except.ok ps => pyFor (authorStep i t a) (pyIter ps)
  else
    ([], none)

/-- `XMLImporter.insert_author(authorList, id, type, author)`. -/
def insert_author (al i t a : XVal) : Trace :=
  wrapS ImpName.author (authorBody al i t a)

/-- The field extraction at the top of the `insert_reference` loop body:
defaults `id = type = name = ""`, overridden when `'@key' in reference`,
`reference.get('citation', {}).get('@type') is not None`, and
`reference.get('citation', {}).get('@name') is not None` respectively. -/
def refFields (r : XVal) : Except PyErr (XVal × XVal × XVal) :=
  match (if pyContains r "@key" then getItem r "@key"
         else Except.ok (XVal.str "")) with
  | Except.error e => Except.error e
  | Except.ok i =>
    match getDefault r "citation" (XVal.obj []) with
    | Except.error e => Except.error e
    | Except.ok cit1 =>
      match getOpt cit1 "@type" with
      | Except.error e => Except.error e
      | Except.ok t1 =>
        match
          (match t1 with
           | some _ =>
             match getItem r "citation" with
             | Except.error e => Except.error e
             | Except.ok c => getItem c "@type"
           | none => Except.ok (XVal.str "")) with
        | Except.error e => Except.error e
        | Except.ok t =>
          match getDefault r "citation" (XVal.obj []) with
          | Except.error e => Except.error e
          | Except.ok cit2 =>
            match getOpt cit2 "@name" with
            | Except.error e => Except.error e
            | Except.ok n1 =>
              match
                (match n1 with
                 | some _ =>
                   match getItem r "citation" with
                   | Except.error e => Except.error e
                   | Except.ok c => getItem c "@name"
                 | none => Except.ok (XVal.str "")) with
              | Except.error e => Except.error e
              | Except.ok n => Except.ok (i, t, n)

/-- The author-cascade tail of the `insert_reference` loop body:
`if 'authorList' in reference['citation']: ... self.insert_author(...)`.
Note that `reference['citation']` raises KeyError when absent. -/
def refTail (r i t n : XVal) : Trace :=
  match getItem r "citation" with
  | Except.error e => ([], some e)
  | Except.ok c =>
    if pyContains c "authorList" then
      match getItem c "authorList" with
      | Except.error e => ([], some e)
      | Except.ok al => insert_author al i t n
    else
      ([], none)

/-- One iteration of the `insert_reference` loop. -/
def refStep (r : XVal) : Trace :=
  match refFields r with
  | Except.error e => ([], some e)
  | Except.ok (i, t, n) =>
    let tl := refTail r i t n
    (Event.write (Stmt.createReference i t n) ::
      Event.write (Stmt.relHasReference qProtein i t n) :: tl.1, tl.2)

/-- `XMLImporter.insert_reference`. -/
def insert_reference (doc : XVal) : Trace :=
  wrapE ImpName.reference
    (loopBody (navPath doc ["uniprot", "entry", "reference"]) refStep)

/-- `XMLImporter.insert_fullname`. -/
def insert_fullname (doc : XVal) : Trace :=
  wrapS ImpName.fullname
    (match navPath doc
        ["uniprot", "entry", "protein", "recommendedName", "fullName"] with
     | Except.error e => ([], some e)
     | Except.ok v =>
       if xeqStr v "Hepatocyte nuclear factor 3-beta" then
         ([Stmt.createFullName v, Stmt.relHasFullName qProtein v], none)
       else
         ([], none))

/-- One iteration of the `insert_organism` loop. -/
def orgStep (g : XVal) : List Stmt × Option PyErr :=
  match getItem g "#text" with
  | Except.error e => ([], some e)
  | Except.ok v =>
    if xeqStr v "Homo sapiens" then
      ([Stmt.createOrganism v (XVal.str "9606"),
        Stmt.relInOrganism qProtein v (XVal.str "9606")], none)
    else
      ([], none)

/-- `XMLImporter.insert_organism`. -/
def insert_organism (doc : XVal) : Trace :=
  wrapS ImpName.organism
    (loopBody (navPath doc ["uniprot", "entry", "organism", "name"]) orgStep)

/-- Sequencing of two steps: the second runs only when the first did not
raise; an exception propagates, halting the remaining steps. -/
def seq2 (a b : Trace) : Trace :=
  match a with
  | (es, some e) => (es, some e)
  | (es, none) => (es ++ b.1, b.2)

/-- `XMLImporter.run`: the full pipeline in its fixed order. -/
def run (doc : XVal) : Trace :=
  seq2 (insert_protein doc)
    (seq2 (insert_gene doc)
      (seq2 (insert_feature doc)
        (seq2 (insert_reference doc)
          (seq2 (insert_fullname doc) (insert_organism doc)))))

/-- The write statements of a trace, in order. -/
def writesOf (es : List Event) : List Stmt :=
  es.filterMap fun e =>
    match e with
    | Event.write s => some s
    | _ => none

/-- The sub-importer invocations of a trace, in order. -/
def callsOf (es : List Event) : List ImpName :=
  es.filterMap fun e =>
    match e with
    | Event.call n => some n
    | _ => none

/-! ### Structural equality of document values -/

mutual

/-- Structural equality on document values. -/
def beqX : XVal → XVal → Bool
  | XVal.str a, XVal.str b => a == b
  | XVal.obj a, XVal.obj b => beqFX a b
  | XVal.arr a, XVal.arr b => beqLX a b
  | _, _ => false

/-- Structural equality on lists of document values. -/
def beqLX : List XVal → List XVal → Bool
  | [], [] => true
  | a :: as, b :: bs => beqX a b && beqLX as bs
  | _, _ => false

/-- Structural equality on dictionary field lists. -/
def beqFX : List (String × XVal) → List (String × XVal) → Bool
  | [], [] => true
  | (k, v) :: as, (k2, v2) :: bs => k == k2 && beqX v v2 && beqFX as bs
  | _, _ => false

end

/-! ### Node keys, creation keys and relationship endpoints -/

/-- The key properties by which a `MATCH`-based relationship statement
identifies an endpoint node, as used in the relationship query templates. -/
inductive NodeKey where
  | protein : XVal → NodeKey
  | gene : XVal → NodeKey
  | feature : XVal → XVal → NodeKey
  | reference : XVal → XVal → XVal → NodeKey
  | author : XVal → NodeKey
  | fullName : XVal → NodeKey
  | organism : XVal → XVal → NodeKey

/-- Equality of node keys. -/
def beqK : NodeKey → NodeKey → Bool
  | NodeKey.protein a, NodeKey.protein b => beqX a b
  | NodeKey.gene a, NodeKey.gene b => beqX a b
  | NodeKey.feature a b, NodeKey.feature c d => beqX a c && beqX b d
  | NodeKey.reference a b c, NodeKey.reference d e f =>
    beqX a d && beqX b e && beqX c f
  | NodeKey.author a, NodeKey.author b => beqX a b
  | NodeKey.fullName a, NodeKey.fullName b => beqX a b
  | NodeKey.organism a b, NodeKey.organism c d => beqX a c && beqX b d
  | _, _ => false

/-- The node (with its key properties) created by a node-creation
statement; `none` for relationship statements. -/
def createsKey : Stmt → Option NodeKey
  | Stmt.createProtein i => some (NodeKey.protein i)
  | Stmt.createGene n => some (NodeKey.gene n)
  | Stmt.createFeature n t => some (NodeKey.feature n t)
  | Stmt.createReference i t n => some (NodeKey.reference i t n)
  | Stmt.createAuthor n => some (NodeKey.author n)
  | Stmt.createFullName n => some (NodeKey.fullName n)
  | Stmt.createOrganism n t => some (NodeKey.organism n t)
  | _ => none

/-- The two endpoint node keys matched by a relationship-creation
statement; `none` for node-creation statements. -/
def relEndpoints : Stmt → Option (NodeKey × NodeKey)
  | Stmt.relFromGene p n => some (NodeKey.protein p, NodeKey.gene n)
  | Stmt.relHasFeature p n t => some (NodeKey.protein p, NodeKey.feature n t)
  | Stmt.relHasReference p i t n =>
    some (NodeKey.protein p, NodeKey.reference i t n)
  | Stmt.relHasAuthor i t a n =>
    some (NodeKey.reference i t a, NodeKey.author n)
  | Stmt.relHasFullName p n => some (NodeKey.protein p, NodeKey.fullName n)
  | Stmt.relInOrganism p n t => some (NodeKey.protein p, NodeKey.organism n t)
  | _ => none

/-- Membership of a node key in a list of already-created keys. -/
def keyMem (k : NodeKey) (c : List NodeKey) : Bool :=
  c.any fun x => beqK x k

/-- Record the node created by a statement (if any) in the accumulator. -/
def consKey (s : Stmt) (c : List NodeKey) : List NodeKey :=
  match createsKey s with
  | some k => k :: c
  | none => c

/-- A relationship statement is admissible when both endpoints were
already created; node-creation statements are always admissible. -/
def relOk (c : List NodeKey) (s : Stmt) : Bool :=
  match relEndpoints s with
  | some (a, b) => keyMem a c && keyMem b c
  | none => true

/-- Scan a statement sequence checking that every relationship statement
comes strictly after the node-creation statements of both its endpoints,
starting from the already-created keys `c`. -/
def checkOrd (c : List NodeKey) : List Stmt → Bool
  | [] => true
  | s :: rest => relOk c s && checkOrd (consKey s c) rest

/-- The created keys accumulated after scanning a statement sequence. -/
def accKeys (c : List NodeKey) : List Stmt → List NodeKey
  | [] => c
  | s :: rest => accKeys (consKey s c) rest

/-- The key of the single root-entity node. -/
def kProt : NodeKey := NodeKey.protein qProtein

/-! ### Entity labels and query templates -/

/-- The graph node labels used by the importer. -/
inductive Label where
  | protein | gene | feature | reference | author | fullName | organism
deriving DecidableEq, BEq

/-- The label of a node key. -/
def nodeLabel : NodeKey → Label
  | NodeKey.protein _ => Label.protein
  | NodeKey.gene _ => Label.gene
  | NodeKey.feature _ _ => Label.feature
  | NodeKey.reference _ _ _ => Label.reference
  | NodeKey.author _ => Label.author
  | NodeKey.fullName _ => Label.fullName
  | NodeKey.organism _ _ => Label.organism

/-- The nodes (by key) created by a sequence of statements: node creation
is unconditional, so this is exactly one node per node-creation statement,
independent of the prior store contents. -/
def nodesOf (w : List Stmt) : List NodeKey :=
  w.filterMap createsKey

/-- The number of nodes with a given label. -/
def countLabel (ns : List NodeKey) (lab : Label) : Nat :=
  ns.countP fun k => nodeLabel k == lab

/-- `true` exactly for node-creation statements. -/
def isCreate (s : Stmt) : Bool :=
  (createsKey s).isSome

/-- The Cypher template of each statement, as written in the source. -/
def queryOf : Stmt → String
  | Stmt.createProtein _ => "CREATE (p:Protein \x7bid_protein: $id_protein\x7d)"
  | Stmt.createGene _ => "CREATE (g:Gene \x7bname: $name\x7d)"
  | Stmt.relFromGene _ _ =>
    "\n        MATCH (p:Protein \x7bid_protein: $id_protein\x7d)\n        MATCH (g:Gene \x7bname: $name\x7d)\n        CREATE (p)-[:FROM_GENE]->(g)\n        "
  | Stmt.createFeature _ _ => "CREATE (f:Feature \x7bname: $name, type: $type\x7d)"
  | Stmt.relHasFeature _ _ _ =>
    "\n        MATCH (p:Protein \x7bid_protein: $id_protein\x7d)\n        MATCH (f:Feature \x7bname: $name, type: $type\x7d)\n        CREATE (p)-[:HAS_FEATURE]->(f)\n        "
  | Stmt.createReference _ _ _ =>
    "CREATE (r:Reference \x7bid: $id, type: $type, name: $name\x7d)"
  | Stmt.relHasReference _ _ _ _ =>
    "\n        MATCH (p:Protein \x7bid_protein: $id_protein\x7d)\n        MATCH (r:Reference \x7bid: $id, type: $type, name: $name\x7d)\n        CREATE (p)-[:HAS_REFERENCE]->(r)\n        "
  | Stmt.createAuthor _ => "CREATE (a:Author \x7bname: $name\x7d)"
  | Stmt.relHasAuthor _ _ _ _ =>
    "\n        MATCH (r:Reference \x7bid: $id, type: $type, name: $author\x7d)\n        MATCH (a:Author \x7bname: $name\x7d)\n        CREATE (r)-[:HAS_AUTHOR]->(a)\n        "
  | Stmt.createFullName _ => "CREATE (f:FullName \x7bname: $name\x7d)"
  | Stmt.relHasFullName _ _ =>
    "\n        MATCH (p:Protein \x7bid_protein: $id_protein\x7d)\n        MATCH (f:FullName \x7bname: $name\x7d)\n        CREATE (p)-[:HAS_FULL_NAME]->(f)\n        "
  | Stmt.createOrganism _ _ =>
    "CREATE (f:Organism \x7bname: $name, taxonomy_id: $taxonomy_id\x7d)"
  | Stmt.relInOrganism _ _ _ =>
    "\n        MATCH (p:Protein \x7bid_protein: $id_protein\x7d)\n        MATCH (o:Organism \x7bname: $name, taxonomy_id: $taxonomy_id\x7d)\n        CREATE (p)-[:IN_ORGANISM]->(o)\n        "

/-! ### Characterizations of the selected elements and emitted blocks -/

/-- Whether navigation produced a plain string value. -/
def isStrOk : Except PyErr XVal → Bool
  | Except.ok (XVal.str _) => true
  | _ => false

/-- `getItem g k` is a string equal to `s`. -/
def fieldIs (g : XVal) (k s : String) : Bool :=
  match getItem g k with
  | Except.ok v => xeqStr v s
  | Except.error _ => false

/-- The `#text` content of an element (empty on absence, used only where
presence is guaranteed). -/
def textOf (g : XVal) : XVal :=
  match getItem g "#text" with
  | Except.ok v => v
  | Except.error _ => XVal.str ""

/-- The gene-name selection predicate as a total function on elements. -/
def geneMatch (g : XVal) : Bool :=
  (fieldIs g "@type" "synonym" && fieldIs g "#text" "HNF3B") ||
  (fieldIs g "@type" "primary" && fieldIs g "#text" "FOXA2")

/-- A gene-name element whose `@type` and `#text` fields are present
strings. -/
def geneElemOk (g : XVal) : Bool :=
  isStrOk (getItem g "@type") && isStrOk (getItem g "#text")

/-- The statements contributed by one gene-name element. -/
def geneBlock (g : XVal) : List Stmt :=
  if geneMatch g then
    [Stmt.createGene (textOf g), Stmt.relFromGene qProtein (textOf g)]
  else
    []

/-- The organism selection predicate as a total function on elements. -/
def orgMatch (g : XVal) : Bool :=
  fieldIs g "#text" "Homo sapiens"

/-- An organism name element whose `#text` field is a present string. -/
def orgElemOk (g : XVal) : Bool :=
  isStrOk (getItem g "#text")

/-- The statements contributed by one organism name element. -/
def orgBlock (g : XVal) : List Stmt :=
  if orgMatch g then
    [Stmt.createOrganism (textOf g) (XVal.str "9606"),
     Stmt.relInOrganism qProtein (textOf g) (XVal.str "9606")]
  else
    []

/-- The `@name` value of a person element (empty on absence, used only
where presence is guaranteed). -/
def nameAt (p : XVal) : XVal :=
  match getItem p "@name" with
  | Except.ok v => v
  | Except.error _ => XVal.str ""

/-- A person element whose `@name` field is a present string. -/
def personOk (p : XVal) : Bool :=
  isStrOk (getItem p "@name")

/-- The statements contributed by one person element of an author list
anchored at the reference key `(i, t, a)`. -/
def authorBlock (i t a : XVal) (p : XVal) : List Stmt :=
  [Stmt.createAuthor (nameAt p), Stmt.relHasAuthor i t a (nameAt p)]

/-- The `id` parameter computed for a reference element: its `@key`
attribute, defaulting to the empty string. -/
def refId (r : XVal) : XVal :=
  match r with
  | XVal.obj fs =>
    match fs.lookup "@key" with
    | some v => v
    | none => XVal.str ""
  | _ => XVal.str ""

/-- The `type` parameter computed for a reference element: its citation's
`@type` attribute, defaulting to the empty string. -/
def refType (r : XVal) : XVal :=
  match r with
  | XVal.obj fs =>
    match fs.lookup "citation" with
    | some (XVal.obj cs) =>
      match cs.lookup "@type" with
      | some v => v
      | none => XVal.str ""
    | _ => XVal.str ""
  | _ => XVal.str ""

/-- The `name` parameter computed for a reference element: its citation's
`@name` attribute, defaulting to the empty string. -/
def refName (r : XVal) : XVal :=
  match r with
  | XVal.obj fs =>
    match fs.lookup "citation" with
    | some (XVal.obj cs) =>
      match cs.lookup "@name" with
      | some v => v
      | none => XVal.str ""
    | _ => XVal.str ""
  | _ => XVal.str ""

/-- Statement classifiers used for counting. -/
def isCreateGene : Stmt → Bool
  | Stmt.createGene _ => true
  | _ => false

def isRelFromGene : Stmt → Bool
  | Stmt.relFromGene _ _ => true
  | _ => false

def isCreateAuthor : Stmt → Bool
  | Stmt.createAuthor _ => true
  | _ => false

def isRelHasAuthor : Stmt → Bool
  | Stmt.relHasAuthor _ _ _ _ => true
  | _ => false

def isCreateOrganism : Stmt → Bool
  | Stmt.createOrganism _ _ => true
  | _ => false

def isRelInOrganism : Stmt → Bool
  | Stmt.relInOrganism _ _ _ => true
  | _ => false

/-- The `taxonomy_id` parameter of a statement, when it has one. -/
def taxOf : Stmt → Option XVal
  | Stmt.createOrganism _ t => some t
  | Stmt.relInOrganism _ _ t => some t
  | _ => none

/-- Event classifiers used for resource accounting. -/
def isOpenD : Event → Bool
  | Event.openDriver => true
  | _ => false

def isCloseD : Event → Bool
  | Event.closeDriver => true
  | _ => false

def isOpenS : Event → Bool
  | Event.openSession => true
  | _ => false

def isCloseS : Event → Bool
  | Event.closeSession => true
  | _ => false

/-- Sessions are always released; the driver is released exactly on the
success path and leaks on the failure path. -/
def resourceSafe (tr : Trace) : Prop :=
  tr.1.countP isOpenS = tr.1.countP isCloseS ∧
  (tr.2 = none → tr.1.countP isOpenD = tr.1.countP isCloseD) ∧
  (tr.2 ≠ none → tr.1.countP isCloseD < tr.1.countP isOpenD)

/-! ### Concrete documents -/

/-- A fully conforming document exercising every sub-importer. -/
def docEx : XVal :=
  XVal.obj [("uniprot", XVal.obj [("entry", XVal.obj [
    ("gene", XVal.obj [("name", XVal.arr [
      XVal.obj [("@type", XVal.str "synonym"), ("#text", XVal.str "HNF3B")],
      XVal.obj [("@type", XVal.str "primary"), ("#text", XVal.str "FOXA2")],
      XVal.obj [("@type", XVal.str "synonym"), ("#text", XVal.str "XYZ")]])]),
    ("feature", XVal.arr [
      XVal.obj [("@type", XVal.str "modified residue"),
        ("@description", XVal.str "Phosphoserine"),
        ("location", XVal.obj [("position",
          XVal.obj [("@position", XVal.str "307")])])],
      XVal.obj [("@type", XVal.str "chain"),
        ("@description", XVal.str "Other"),
        ("location", XVal.obj [("position",
          XVal.obj [("@position", XVal.str "12")])])]]),
    ("reference", XVal.arr [
      XVal.obj [("@key", XVal.str "1"), ("citation", XVal.obj [
        ("@type", XVal.str "journal article"), ("@name", XVal.str "Nature"),
        ("authorList", XVal.obj [("person", XVal.arr [
          XVal.obj [("@name", XVal.str "Smith J.")],
          XVal.obj [("@name", XVal.str "Lee K.")]])])])]]),
    ("protein", XVal.obj [("recommendedName", XVal.obj [
      ("fullName", XVal.str "Hepatocyte nuclear factor 3-beta")])]),
    ("organism", XVal.obj [("name", XVal.arr [
      XVal.obj [("#text", XVal.str "Homo sapiens")],
      XVal.obj [("#text", XVal.str "Human")]])])])])]

/-- A document whose gene-name child is a single object rather than a
sequence (the shape `xmltodict` produces for a single child element). -/
def docSingle : XVal :=
  XVal.obj [("uniprot", XVal.obj [("entry", XVal.obj [
    ("gene", XVal.obj [("name",
      XVal.obj [("@type", XVal.str "primary"),
        ("#text", XVal.str "FOXA2")])])])])]

/-- The same gene-name element as `docSingle`, as a one-element sequence. -/
def docOneList : XVal :=
  XVal.obj [("uniprot", XVal.obj [("entry", XVal.obj [
    ("gene", XVal.obj [("name", XVal.arr [
      XVal.obj [("@type", XVal.str "primary"),
        ("#text", XVal.str "FOXA2")]])])])])]

/-- A document with a gene-name element missing its `@type` attribute. -/
def docBadGene : XVal :=
  XVal.obj [("uniprot", XVal.obj [("entry", XVal.obj [
    ("gene", XVal.obj [("name", XVal.arr [
      XVal.obj [("#text", XVal.str "HNF3B")]])])])])]

/-- A document with a reference element that has no `citation`. -/
def docNoCit : XVal :=
  XVal.obj [("uniprot", XVal.obj [("entry", XVal.obj [
    ("reference", XVal.arr [XVal.obj [("@key", XVal.str "7")]])])])]

/-! ### Basic lemmas -/

mutual

theorem beqX_refl : ∀ v : XVal, beqX v v = true
  | XVal.str a => by simp [beqX]
  | XVal.obj a => by simpa [beqX] using beqFX_refl a
  | XVal.arr a => by simpa [beqX] using beqLX_refl a

theorem beqLX_refl : ∀ l : List XVal, beqLX l l = true
  | [] => rfl
  | a :: as => by simp [beqLX, beqX_refl a, beqLX_refl as]

theorem beqFX_refl : ∀ l : List (String × XVal), beqFX l l = true
  | [] => rfl
  | (k, v) :: as => by simp [beqFX, beqX_refl v, beqFX_refl as]

end

theorem beqK_refl (k : NodeKey) : beqK k k = true := by
  cases k <;> simp [beqK, beqX_refl]

theorem writesOf_append (a b : List Event) :
    writesOf (a ++ b) = writesOf a ++ writesOf b := by
  simp [writesOf]

theorem writesOf_map_write (l : List Stmt) :
    writesOf (l.map Event.write) = l := by
  induction l with
  | nil => rfl
  | cons s rest ih => simp [writesOf] at ih ⊢; exact ih

theorem callsOf_append (a b : List Event) :
    callsOf (a ++ b) = callsOf a ++ callsOf b := by
  simp [callsOf]

theorem callsOf_map_write (l : List Stmt) :
    callsOf (l.map Event.write) = [] := by
  induction l with
  | nil => rfl
  | cons s rest ih =>
    simp only [callsOf, List.filterMap_cons] at ih ⊢
    exact ih

theorem wrapE_fst (n : ImpName) (es : List Event) (oe : Option PyErr) :
    (wrapE n (es, oe)).1 =
      Event.call n :: Event.openDriver :: Event.openSession ::
        (es ++ (match oe with
                | none => [Event.closeSession, Event.closeDriver]
                | some _ => [Event.closeSession])) := by
  cases oe <;> rfl

theorem wrapE_snd (n : ImpName) (es : List Event) (oe : Option PyErr) :
    (wrapE n (es, oe)).2 = oe := by
  cases oe <;> rfl

theorem writesOf_wrapE (n : ImpName) (b : Trace) :
    writesOf (wrapE n b).1 = writesOf b.1 := by
  obtain ⟨es, oe⟩ := b
  cases oe <;> simp [wrapE, writesOf]

theorem writesOf_wrapS (n : ImpName) (b : List Stmt × Option PyErr) :
    writesOf (wrapS n b).1 = b.1 := by
  unfold wrapS
  rw [writesOf_wrapE]
  exact writesOf_map_write b.1

theorem wrapS_snd (n : ImpName) (b : List Stmt × Option PyErr) :
    (wrapS n b).2 = b.2 := by
  unfold wrapS
  exact wrapE_snd n (b.1.map Event.write) b.2

theorem callsOf_wrapE (n : ImpName) (b : Trace) :
    callsOf (wrapE n b).1 = n :: callsOf b.1 := by
  obtain ⟨es, oe⟩ := b
  cases oe <;> simp [wrapE, callsOf]

theorem callsOf_wrapS (n : ImpName) (b : List Stmt × Option PyErr) :
    callsOf (wrapS n b).1 = [n] := by
  unfold wrapS
  rw [callsOf_wrapE]
  simp [callsOf_map_write]

theorem seq2_of_none (a b : Trace) (h : a.2 = none) :
    seq2 a b = (a.1 ++ b.1, b.2) := by
  obtain ⟨es, oe⟩ := a
  cases oe with
  | none => rfl
  | some e => simp at h

theorem seq2_none_left (a b : Trace) (h : (seq2 a b).2 = none) :
    a.2 = none := by
  obtain ⟨es, oe⟩ := a
  cases oe with
  | none => rfl
  | some e => simp [seq2] at h

theorem seq2_none_right (a b : Trace) (h : (seq2 a b).2 = none) :
    b.2 = none := by
  obtain ⟨es, oe⟩ := a
  cases oe with
  | none => simpa [seq2] using h
  | some e => simp [seq2] at h

/-- A successful loop where every iteration emits its block. -/
theorem pyFor_ok {α : Type} (f : XVal → List α × Option PyErr)
    (blk : XVal → List α) :
    ∀ l : List XVal, (∀ x ∈ l, f x = (blk x, none)) →
      pyFor f l = (l.flatMap blk, none) := by
  intro l
  induction l with
  | nil => intro _; rfl
  | cons x xs ih =>
    intro h
    have hx := h x (List.mem_cons_self x xs)
    have hxs := ih fun y hy => h y (List.mem_cons_of_mem x hy)
    simp [pyFor, hx, hxs]

/-- Everything emitted by a loop is emitted by some iteration. -/
theorem pyFor_mem {α : Type} (f : XVal → List α × Option PyErr)
    (P : α → Prop) (hf : ∀ x, ∀ s ∈ (f x).1, P s) :
    ∀ l : List XVal, ∀ s ∈ (pyFor f l).1, P s := by
  intro l
  induction l with
  | nil => intro s hs; simp [pyFor] at hs
  | cons x xs ih =>
    intro s hs
    unfold pyFor at hs
    rcases hfx : f x with ⟨ws, oe⟩
    cases oe with
    | some e =>
      rw [hfx] at hs
      exact hf x s (by rw [hfx]; exact hs)
    | none =>
      rw [hfx] at hs
      simp at hs
      rcases hs with hs | hs
      · exact hf x s (by rw [hfx]; exact hs)
      · exact ih s hs

/-- Counting one statement kind over per-element blocks. -/
theorem countP_bind_blocks (blk : XVal → List Stmt) (m : XVal → Bool)
    (p : Stmt → Bool)
    (h1 : ∀ x, m x = true → (blk x).countP p = 1)
    (h0 : ∀ x, m x = false → blk x = []) :
    ∀ l : List XVal, (l.flatMap blk).countP p = (l.filter m).length := by
  intro l
  induction l with
  | nil => rfl
  | cons x xs ih =>
    rw [List.flatMap_cons, List.countP_append]
    rcases hm : m x with hf | ht
    · rw [h0 x hm]
      simp [List.filter_cons, hm, ih]
    · rw [h1 x hm]
      simp [List.filter_cons, hm, ih]
      omega

/-! ### Lemmas about the ordering checker -/

theorem keyMem_cons_of (k x : NodeKey) (c : List NodeKey)
    (h : keyMem k c = true) : keyMem k (x :: c) = true := by
  simp [keyMem] at h ⊢
  exact Or.inr h

theorem keyMem_head (k : NodeKey) (c : List NodeKey) :
    keyMem k (k :: c) = true := by
  simp [keyMem]
  exact Or.inl (beqK_refl k)

theorem keyMem_consKey_of (s : Stmt) (k : NodeKey) (c : List NodeKey)
    (h : keyMem k c = true) : keyMem k (consKey s c) = true := by
  unfold consKey
  cases createsKey s with
  | none => exact h
  | some k2 => exact keyMem_cons_of k k2 c h

theorem keyMem_accKeys_of (xs : List Stmt) (k : NodeKey) :
    ∀ c : List NodeKey, keyMem k c = true → keyMem k (accKeys c xs) = true := by
  induction xs with
  | nil => intro c h; exact h
  | cons s rest ih =>
    intro c h
    exact ih (consKey s c) (keyMem_consKey_of s k c h)

theorem checkOrd_append (xs ys : List Stmt) :
    ∀ c : List NodeKey,
      checkOrd c (xs ++ ys) = (checkOrd c xs && checkOrd (accKeys c xs) ys) := by
  induction xs with
  | nil => intro c; simp [checkOrd, accKeys]
  | cons s rest ih =>
    intro c
    simp [checkOrd, accKeys, ih (consKey s c), Bool.and_assoc]

/-! ### C1: the gene import -/

/-- On an element with string `@type` and `#text` fields the source
predicate evaluates, without raising, to the total match function. -/
theorem genePred_ok (g : XVal) (h : geneElemOk g = true) :
    genePred g = Except.ok (geneMatch g) := by
  rw [geneElemOk, Bool.and_eq_true] at h
  obtain ⟨h1, h2⟩ := h
  rcases e1 : getItem g "@type" with e | v1
  · rw [e1] at h1; simp [isStrOk] at h1
  rcases v1 with t | fs | l
  case obj => rw [e1] at h1; simp [isStrOk] at h1
  case arr => rw [e1] at h1; simp [isStrOk] at h1
  rcases e2 : getItem g "#text" with e | v2
  · rw [e2] at h2; simp [isStrOk] at h2
  rcases v2 with x | fs2 | l2
  case obj => rw [e2] at h2; simp [isStrOk] at h2
  case arr => rw [e2] at h2; simp [isStrOk] at h2
  unfold genePred geneMatch fieldIs
  rw [e1, e2]
  simp only [xeqStr]
  cases hb1 : (t == "synonym") <;> cases hb2 : (x == "HNF3B") <;>
    cases hb3 : (t == "primary") <;> cases hb4 : (x == "FOXA2") <;>
    simp [hb1, hb2, hb3, hb4]

/-- On a well-formed element one loop iteration of `insert_gene` emits
exactly its block and does not raise. -/
theorem geneStep_eq (g : XVal) (h : geneElemOk g = true) :
    geneStep g = (geneBlock g, none) := by
  have hp := genePred_ok g h
  have h2 : isStrOk (getItem g "#text") = true := by
    rw [geneElemOk, Bool.and_eq_true] at h
    exact h.2
  unfold geneStep geneBlock
  rw [hp]
  cases hm : geneMatch g
  · simp
  · rcases e2 : getItem g "#text" with e | v
    · rw [e2] at h2; simp [isStrOk] at h2
    · simp [textOf, e2]

/-- C1: for every document whose gene-name sub-tree is a sequence of
elements with string `@type`/`#text` fields, running the Protein import
followed by the Gene import issues the Protein creation plus, per matching
element, exactly one Gene node creation and one FROM_GENE relationship
(and nothing for non-matching elements); the Gene node and FROM_GENE edge
counts both equal the number of matching elements. -/
theorem C1_gene_import (doc : XVal) (l : List XVal)
    (hnav : navPath doc ["uniprot", "entry", "gene", "name"] =
      Except.ok (XVal.arr l))
    (hok : l.all geneElemOk = true) :
    (insert_gene doc).2 = none ∧
    writesOf ((insert_protein doc).1 ++ (insert_gene doc).1) =
      Stmt.createProtein qProtein :: l.flatMap geneBlock ∧
    (writesOf ((insert_protein doc).1 ++ (insert_gene doc).1)).countP
        isCreateGene = (l.filter geneMatch).length ∧
    (writesOf ((insert_protein doc).1 ++ (insert_gene doc).1)).countP
        isRelFromGene = (l.filter geneMatch).length := by
  have hsteps : ∀ x ∈ pyIter (XVal.arr l), geneStep x = (geneBlock x, none) := by
    intro x hx
    refine geneStep_eq x ?_
    rw [List.all_eq_true] at hok
    exact hok x (by simpa [pyIter] using hx)
  have hfor := pyFor_ok geneStep geneBlock (pyIter (XVal.arr l)) hsteps
  have hbody : loopBody (navPath doc ["uniprot", "entry", "gene", "name"])
      geneStep = (l.flatMap geneBlock, none) := by
    rw [hnav]
    unfold loopBody
    simp only []
    show pyFor geneStep (pyIter (XVal.arr l)) = (l.flatMap geneBlock, none)
    rw [hfor]
    rfl
  have hw : writesOf ((insert_protein doc).1 ++ (insert_gene doc).1) =
      Stmt.createProtein qProtein :: l.flatMap geneBlock := by
    rw [writesOf_append]
    unfold insert_gene insert_protein
    rw [writesOf_wrapS, writesOf_wrapS, hbody]
    rfl
  have hcg : (l.flatMap geneBlock).countP isCreateGene =
      (l.filter geneMatch).length := by
    refine countP_bind_blocks geneBlock geneMatch isCreateGene ?_ ?_ l
    · intro x hm
      simp [geneBlock, hm, isCreateGene]
    · intro x hm
      simp [geneBlock, hm]
  have hrg : (l.flatMap geneBlock).countP isRelFromGene =
      (l.filter geneMatch).length := by
    refine countP_bind_blocks geneBlock geneMatch isRelFromGene ?_ ?_ l
    · intro x hm
      simp [geneBlock, hm, isRelFromGene]
    · intro x hm
      simp [geneBlock, hm]
  refine ⟨?_, hw, ?_, ?_⟩
  · unfold insert_gene
    rw [wrapS_snd, hbody]
  · rw [hw]
    simp [List.countP_cons, isCreateGene, hcg]
  · rw [hw]
    simp [List.countP_cons, isRelFromGene, hrg]

/-- Witness for C1 at a concrete document with two matching gene-name
elements and one non-matching one: two Gene nodes and two FROM_GENE
edges are created. -/
theorem C1_gene_import_witness :
    (navPath docEx ["uniprot", "entry", "gene", "name"] = Except.ok (XVal.arr
      [XVal.obj [("@type", XVal.str "synonym"), ("#text", XVal.str "HNF3B")],
       XVal.obj [("@type", XVal.str "primary"), ("#text", XVal.str "FOXA2")],
       XVal.obj [("@type", XVal.str "synonym"), ("#text", XVal.str "XYZ")]])) ∧
    ((insert_gene docEx).2 = none ∧
     writesOf ((insert_protein docEx).1 ++ (insert_gene docEx).1) =
       Stmt.createProtein qProtein ::
         ([XVal.obj [("@type", XVal.str "synonym"), ("#text", XVal.str "HNF3B")],
           XVal.obj [("@type", XVal.str "primary"), ("#text", XVal.str "FOXA2")],
           XVal.obj [("@type", XVal.str "synonym"),
             ("#text", XVal.str "XYZ")]].flatMap geneBlock) ∧
     (writesOf ((insert_protein docEx).1 ++ (insert_gene docEx).1)).countP
         isCreateGene = 2 ∧
     (writesOf ((insert_protein docEx).1 ++ (insert_gene docEx).1)).countP
         isRelFromGene = 2) :=
  ⟨rfl, C1_gene_import docEx _ rfl rfl⟩


/-! ### C2: relationships are issued after both endpoint creations -/

/-- Loop steps that emit either nothing or a create-then-relate pair whose
relationship points at a fixed anchor and at the node just created. -/
theorem checkOrd_pyFor_pairs (f : XVal → List Stmt × Option PyErr)
    (anchor : NodeKey)
    (hf : ∀ x, (f x).1 = [] ∨ ∃ s r k, (f x).1 = [s, r] ∧
      createsKey s = some k ∧ relEndpoints s = none ∧
      relEndpoints r = some (anchor, k)) :
    ∀ l : List XVal, ∀ c, keyMem anchor c = true →
      checkOrd c (pyFor f l).1 = true := by
  intro l
  induction l with
  | nil => intro c _; rfl
  | cons x xs ih =>
    intro c hc
    unfold pyFor
    rcases hfx : f x with ⟨ws, oe⟩
    have hblock : checkOrd c ws = true := by
      have hs := hf x
      rw [hfx] at hs
      rcases hs with h0 | ⟨s, r, k, hsr, hck, hrs, hrr⟩
      · simp only at h0
        rw [h0]
        rfl
      · simp only at hsr
        rw [hsr]
        simp [checkOrd, relOk, hrs, hrr, consKey, hck]
        exact ⟨keyMem_cons_of _ _ _ hc, keyMem_head k c⟩
    cases oe with
    | some e => exact hblock
    | none =>
      simp only
      rw [checkOrd_append, hblock, Bool.true_and]
      exact ih (accKeys c ws) (keyMem_accKeys_of ws anchor c hc)

theorem geneStep_shape (x : XVal) :
    (geneStep x).1 = [] ∨ ∃ s r k, (geneStep x).1 = [s, r] ∧
      createsKey s = some k ∧ relEndpoints s = none ∧
      relEndpoints r = some (kProt, k) := by
  unfold geneStep
  cases genePred x with
  | error e => exact Or.inl rfl
  | ok b =>
    cases b with
    | false => exact Or.inl rfl
    | true =>
      cases getItem x "#text" with
      | error e => exact Or.inl rfl
      | ok n =>
        exact Or.inr ⟨_, _, NodeKey.gene n, rfl, rfl, rfl, rfl⟩

theorem featStep_shape (x : XVal) :
    (featStep x).1 = [] ∨ ∃ s r k, (featStep x).1 = [s, r] ∧
      createsKey s = some k ∧ relEndpoints s = none ∧
      relEndpoints r = some (kProt, k) := by
  unfold featStep
  cases featPred x with
  | error e => exact Or.inl rfl
  | ok b =>
    cases b with
    | false => exact Or.inl rfl
    | true =>
      cases getItem x "@description" with
      | error e => exact Or.inl rfl
      | ok n =>
        cases getItem x "@type" with
        | error e => exact Or.inl rfl
        | ok t =>
          dsimp only
          by_cases hx : (xeqStr n "Phosphoserine" && xeqStr t "modified residue") = true
          · rw [if_pos hx]
            exact Or.inr ⟨_, _, NodeKey.feature n t, rfl, rfl, rfl, rfl⟩
          · rw [if_neg hx]
            exact Or.inl rfl

theorem orgStep_shape (x : XVal) :
    (orgStep x).1 = [] ∨ ∃ s r k, (orgStep x).1 = [s, r] ∧
      createsKey s = some k ∧ relEndpoints s = none ∧
      relEndpoints r = some (kProt, k) := by
  unfold orgStep
  cases getItem x "#text" with
  | error e => exact Or.inl rfl
  | ok v =>
    dsimp only
    by_cases hx : xeqStr v "Homo sapiens" = true
    · rw [if_pos hx]
      exact Or.inr ⟨_, _, NodeKey.organism v (XVal.str "9606"), rfl, rfl, rfl, rfl⟩
    · rw [if_neg hx]
      exact Or.inl rfl

theorem authorStep_shape (i t a : XVal) (x : XVal) :
    (authorStep i t a x).1 = [] ∨ ∃ s r k, (authorStep i t a x).1 = [s, r] ∧
      createsKey s = some k ∧ relEndpoints s = none ∧
      relEndpoints r = some (NodeKey.reference i t a, k) := by
  unfold authorStep
  cases getItem x "@name" with
  | error e => exact Or.inl rfl
  | ok n =>
    exact Or.inr ⟨_, _, NodeKey.author n, rfl, rfl, rfl, rfl⟩

theorem checkOrd_insert_author (al i t a : XVal) :
    ∀ c, keyMem (NodeKey.reference i t a) c = true →
      checkOrd c (writesOf (insert_author al i t a).1) = true := by
  intro c hc
  unfold insert_author
  rw [writesOf_wrapS]
  unfold authorBody
  by_cases hp : pyContains al "person" = true
  · rw [if_pos hp]
    cases getItem al "person" with
    | error e => rfl
    | ok ps =>
      exact checkOrd_pyFor_pairs (authorStep i t a) (NodeKey.reference i t a)
        (authorStep_shape i t a) (pyIter ps) c hc
  · rw [if_neg hp]
    rfl

theorem checkOrd_refStep (r : XVal) :
    ∀ c, keyMem kProt c = true → checkOrd c (writesOf (refStep r).1) = true := by
  intro c hc
  unfold refStep
  cases hrf : refFields r with
  | error e => rfl
  | ok itn =>
    obtain ⟨i, t, n⟩ := itn
    show checkOrd c (writesOf (Event.write (Stmt.createReference i t n) ::
      Event.write (Stmt.relHasReference qProtein i t n) ::
      (refTail r i t n).1)) = true
    have hw : writesOf (Event.write (Stmt.createReference i t n) ::
        Event.write (Stmt.relHasReference qProtein i t n) ::
        (refTail r i t n).1) =
        Stmt.createReference i t n :: Stmt.relHasReference qProtein i t n ::
          writesOf (refTail r i t n).1 := rfl
    rw [hw]
    have h1 : relOk c (Stmt.createReference i t n) = true := rfl
    have hacc : consKey (Stmt.createReference i t n) c =
        NodeKey.reference i t n :: c := rfl
    have h2 : relOk (NodeKey.reference i t n :: c)
        (Stmt.relHasReference qProtein i t n) = true := by
      simp [relOk, relEndpoints]
      exact ⟨keyMem_cons_of _ _ _ hc, keyMem_head _ c⟩
    have htail : checkOrd (NodeKey.reference i t n :: c)
        (writesOf (refTail r i t n).1) = true := by
      unfold refTail
      cases getItem r "citation" with
      | error e => rfl
      | ok cv =>
        dsimp only
        by_cases hal : pyContains cv "authorList" = true
        · rw [if_pos hal]
          cases getItem cv "authorList" with
          | error e => rfl
          | ok al =>
            exact checkOrd_insert_author al i t n _ (keyMem_head _ c)
        · rw [if_neg hal]
          rfl
    simp [checkOrd, h1, hacc, h2, consKey, createsKey, htail]

theorem checkOrd_refFor :
    ∀ l : List XVal, ∀ c, keyMem kProt c = true →
      checkOrd c (writesOf (pyFor refStep l).1) = true := by
  intro l
  induction l with
  | nil => intro c _; rfl
  | cons x xs ih =>
    intro c hc
    unfold pyFor
    rcases hfx : refStep x with ⟨es, oe⟩
    have hb : checkOrd c (writesOf es) = true := by
      have := checkOrd_refStep x c hc
      rw [hfx] at this
      exact this
    cases oe with
    | some e => exact hb
    | none =>
      simp only
      rw [writesOf_append, checkOrd_append, hb, Bool.true_and]
      exact ih (accKeys c (writesOf es)) (keyMem_accKeys_of _ kProt c hc)

theorem checkOrd_insert_gene (doc : XVal) :
    ∀ c, keyMem kProt c = true →
      checkOrd c (writesOf (insert_gene doc).1) = true := by
  intro c hc
  unfold insert_gene
  rw [writesOf_wrapS]
  unfold loopBody
  cases navPath doc ["uniprot", "entry", "gene", "name"] with
  | error e => rfl
  | ok v => exact checkOrd_pyFor_pairs geneStep kProt geneStep_shape (pyIter v) c hc

theorem checkOrd_insert_feature (doc : XVal) :
    ∀ c, keyMem kProt c = true →
      checkOrd c (writesOf (insert_feature doc).1) = true := by
  intro c hc
  unfold insert_feature
  rw [writesOf_wrapS]
  unfold loopBody
  cases navPath doc ["uniprot", "entry", "feature"] with
  | error e => rfl
  | ok v => exact checkOrd_pyFor_pairs featStep kProt featStep_shape (pyIter v) c hc

theorem checkOrd_insert_organism (doc : XVal) :
    ∀ c, keyMem kProt c = true →
      checkOrd c (writesOf (insert_organism doc).1) = true := by
  intro c hc
  unfold insert_organism
  rw [writesOf_wrapS]
  unfold loopBody
  cases navPath doc ["uniprot", "entry", "organism", "name"] with
  | error e => rfl
  | ok v => exact checkOrd_pyFor_pairs orgStep kProt orgStep_shape (pyIter v) c hc

theorem checkOrd_insert_fullname (doc : XVal) :
    ∀ c, keyMem kProt c = true →
      checkOrd c (writesOf (insert_fullname doc).1) = true := by
  intro c hc
  unfold insert_fullname
  rw [writesOf_wrapS]
  cases navPath doc ["uniprot", "entry", "protein", "recommendedName",
      "fullName"] with
  | error e => rfl
  | ok v =>
    dsimp only
    by_cases hx : xeqStr v "Hepatocyte nuclear factor 3-beta" = true
    · rw [if_pos hx]
      simp [checkOrd, relOk, relEndpoints, consKey, createsKey]
      exact ⟨keyMem_cons_of _ _ _ hc, keyMem_head _ c⟩
    · rw [if_neg hx]
      rfl

theorem checkOrd_insert_reference (doc : XVal) :
    ∀ c, keyMem kProt c = true →
      checkOrd c (writesOf (insert_reference doc).1) = true := by
  intro c hc
  unfold insert_reference
  rw [writesOf_wrapE]
  unfold loopBody
  cases navPath doc ["uniprot", "entry", "reference"] with
  | error e => rfl
  | ok v => exact checkOrd_refFor (pyIter v) c hc

theorem checkOrd_seq2 (a b : Trace)
    (ha : ∀ c, keyMem kProt c = true → checkOrd c (writesOf a.1) = true)
    (hb : ∀ c, keyMem kProt c = true → checkOrd c (writesOf b.1) = true) :
    ∀ c, keyMem kProt c = true → checkOrd c (writesOf (seq2 a b).1) = true := by
  intro c hc
  rcases a with ⟨es, oe⟩
  cases oe with
  | some e => exact ha c hc
  | none =>
    show checkOrd c (writesOf (es ++ b.1)) = true
    rw [writesOf_append, checkOrd_append]
    have h1 := ha c hc
    simp only at h1
    rw [h1, Bool.true_and]
    exact hb _ (keyMem_accKeys_of _ kProt c hc)

/-- C2: in the write-statement sequence issued by a full pipeline run on
any document, every relationship-creation statement comes strictly after
node-creation statements for both of its endpoints (checked by scanning
with `checkOrd` from an empty created-node set). -/
theorem C2_rel_after_endpoints (doc : XVal) :
    checkOrd [] (writesOf (run doc).1) = true := by
  unfold run
  rw [seq2_of_none _ _ rfl, writesOf_append]
  have hp : writesOf (insert_protein doc).1 = [Stmt.createProtein qProtein] := rfl
  rw [hp]
  have hstep : checkOrd [] ([Stmt.createProtein qProtein] ++
      writesOf (seq2 (insert_gene doc) (seq2 (insert_feature doc)
        (seq2 (insert_reference doc) (seq2 (insert_fullname doc)
          (insert_organism doc))))).1) =
      checkOrd (NodeKey.protein qProtein :: [])
        (writesOf (seq2 (insert_gene doc) (seq2 (insert_feature doc)
          (seq2 (insert_reference doc) (seq2 (insert_fullname doc)
            (insert_organism doc))))).1) := by
    rw [checkOrd_append]
    rfl
  rw [hstep]
  refine checkOrd_seq2 _ _ (checkOrd_insert_gene doc)
    (checkOrd_seq2 _ _ (checkOrd_insert_feature doc)
      (checkOrd_seq2 _ _ (checkOrd_insert_reference doc)
        (checkOrd_seq2 _ _ (checkOrd_insert_fullname doc)
          (checkOrd_insert_organism doc)))) _ ?_
  exact keyMem_head kProt []

/-! ### C5: unconditional node creation and re-run doubling -/

/-- C5: every node-creation statement's query template is a plain
`CREATE` (never a `MERGE` upsert), and running the full pipeline twice
issues every write twice, producing exactly twice the node count for
every entity label compared to a single run. -/
theorem C5_unconditional_create :
    (∀ s : Stmt, isCreate s = true →
      strStarts (queryOf s) "CREATE" = true ∧
      strHas (queryOf s) "MERGE" = false) ∧
    (∀ doc : XVal,
      writesOf ((run doc).1 ++ (run doc).1) =
        writesOf (run doc).1 ++ writesOf (run doc).1 ∧
      ∀ lab : Label,
        countLabel (nodesOf (writesOf ((run doc).1 ++ (run doc).1))) lab =
          2 * countLabel (nodesOf (writesOf (run doc).1)) lab) := by
  constructor
  · intro s hs
    cases s
    case createProtein i => exact ⟨rfl, rfl⟩
    case createGene n => exact ⟨rfl, rfl⟩
    case createFeature n t => exact ⟨rfl, rfl⟩
    case createReference i t n => exact ⟨rfl, rfl⟩
    case createAuthor n => exact ⟨rfl, rfl⟩
    case createFullName n => exact ⟨rfl, rfl⟩
    case createOrganism n t => exact ⟨rfl, rfl⟩
    all_goals simp [isCreate, createsKey] at hs
  · intro doc
    refine ⟨writesOf_append _ _, ?_⟩
    intro lab
    rw [writesOf_append]
    unfold nodesOf countLabel
    rw [List.filterMap_append, List.countP_append]
    omega

/-- Witness for C5: the Protein creation query is a plain CREATE, and on a
concrete document the double run holds twice as many Gene nodes. -/
theorem C5_unconditional_create_witness :
    (isCreate (Stmt.createProtein qProtein) = true ∧
     strStarts (queryOf (Stmt.createProtein qProtein)) "CREATE" = true ∧
     strHas (queryOf (Stmt.createProtein qProtein)) "MERGE" = false) ∧
    countLabel (nodesOf (writesOf ((run docEx).1 ++ (run docEx).1)))
        Label.gene =
      2 * countLabel (nodesOf (writesOf (run docEx).1)) Label.gene :=
  ⟨⟨rfl, C5_unconditional_create.1 (Stmt.createProtein qProtein) rfl⟩,
   (C5_unconditional_create.2 docEx).2 Label.gene⟩

/-! ### C6: fixed invocation order -/

theorem refStep_calls (x : XVal) :
    callsOf (refStep x).1 = [] ∨ callsOf (refStep x).1 = [ImpName.author] := by
  unfold refStep
  cases refFields x with
  | error e => exact Or.inl rfl
  | ok itn =>
    obtain ⟨i, t, n⟩ := itn
    dsimp only
    have hcc : callsOf (Event.write (Stmt.createReference i t n) ::
        Event.write (Stmt.relHasReference qProtein i t n) ::
        (refTail x i t n).1) = callsOf (refTail x i t n).1 := rfl
    rw [hcc]
    unfold refTail
    cases getItem x "citation" with
    | error e => exact Or.inl rfl
    | ok cv =>
      dsimp only
      by_cases hal : pyContains cv "authorList" = true
      · rw [if_pos hal]
        cases getItem cv "authorList" with
        | error e => exact Or.inl rfl
        | ok al =>
          right
          unfold insert_author
          exact callsOf_wrapS _ _
      · rw [if_neg hal]
        exact Or.inl rfl

theorem refFor_calls : ∀ l : List XVal, ∃ m,
    callsOf (pyFor refStep l).1 = List.replicate m ImpName.author := by
  intro l
  induction l with
  | nil => exact ⟨0, rfl⟩
  | cons x xs ih =>
    unfold pyFor
    rcases hfx : refStep x with ⟨es, oe⟩
    have hx : callsOf es = [] ∨ callsOf es = [ImpName.author] := by
      have hh := refStep_calls x
      rw [hfx] at hh
      exact hh
    cases oe with
    | some e =>
      rcases hx with hx | hx
      · exact ⟨0, hx⟩
      · exact ⟨1, hx⟩
    | none =>
      obtain ⟨m, hm⟩ := ih
      dsimp only
      rw [callsOf_append, hm]
      rcases hx with hx | hx
      · rw [hx]
        exact ⟨m, rfl⟩
      · rw [hx]
        exact ⟨m + 1, by simp [List.replicate_succ]⟩

theorem insert_reference_calls (doc : XVal) :
    ∃ m, callsOf (insert_reference doc).1 =
      ImpName.reference :: List.replicate m ImpName.author := by
  unfold insert_reference
  rw [callsOf_wrapE]
  unfold loopBody
  cases navPath doc ["uniprot", "entry", "reference"] with
  | error e => exact ⟨0, rfl⟩
  | ok v =>
    obtain ⟨m, hm⟩ := refFor_calls (pyIter v)
    exact ⟨m, by rw [hm]⟩

/-- On a successful run the event trace is the concatenation of the six
sub-importer traces. -/
theorem run_trace_of_none (doc : XVal) (h : (run doc).2 = none) :
    (run doc).1 = (insert_protein doc).1 ++ ((insert_gene doc).1 ++
      ((insert_feature doc).1 ++ ((insert_reference doc).1 ++
        ((insert_fullname doc).1 ++ (insert_organism doc).1)))) := by
  have h1 : (seq2 (insert_gene doc) (seq2 (insert_feature doc)
      (seq2 (insert_reference doc) (seq2 (insert_fullname doc)
        (insert_organism doc))))).2 = none := by
    unfold run at h
    exact seq2_none_right _ _ h
  have hg : (insert_gene doc).2 = none := seq2_none_left _ _ h1
  have h2 := seq2_none_right _ _ h1
  have hf : (insert_feature doc).2 = none := seq2_none_left _ _ h2
  have h3 := seq2_none_right _ _ h2
  have hr : (insert_reference doc).2 = none := seq2_none_left _ _ h3
  have h4 := seq2_none_right _ _ h3
  have hfn : (insert_fullname doc).2 = none := seq2_none_left _ _ h4
  unfold run
  rw [seq2_of_none _ _ (rfl : (insert_protein doc).2 = none),
    seq2_of_none _ _ hg, seq2_of_none _ _ hf, seq2_of_none _ _ hr,
    seq2_of_none _ _ hfn]

/-- C6: a successful full pipeline run invokes the sub-importers in
exactly the fixed order Protein, Gene, Feature, Reference (with the
Author import invoked per qualifying reference during the Reference
step), FullName, Organism. -/
theorem C6_fixed_order (doc : XVal) (h : (run doc).2 = none) :
    ∃ m, callsOf (run doc).1 =
      [ImpName.protein, ImpName.gene, ImpName.feature, ImpName.reference] ++
        List.replicate m ImpName.author ++
        [ImpName.fullname, ImpName.organism] := by
  obtain ⟨m, hm⟩ := insert_reference_calls doc
  refine ⟨m, ?_⟩
  rw [run_trace_of_none doc h]
  rw [callsOf_append, callsOf_append, callsOf_append, callsOf_append,
    callsOf_append]
  have cp : callsOf (insert_protein doc).1 = [ImpName.protein] :=
    callsOf_wrapS _ _
  have cg : callsOf (insert_gene doc).1 = [ImpName.gene] :=
    callsOf_wrapS _ _
  have cf : callsOf (insert_feature doc).1 = [ImpName.feature] :=
    callsOf_wrapS _ _
  have cfn : callsOf (insert_fullname doc).1 = [ImpName.fullname] :=
    callsOf_wrapS _ _
  have co : callsOf (insert_organism doc).1 = [ImpName.organism] :=
    callsOf_wrapS _ _
  rw [cp, cg, cf, cfn, co, hm]
  simp

/-- Witness for C6: the fully conforming concrete document runs to
completion and calls the importers in the fixed order with one author
cascade. -/
theorem C6_fixed_order_witness :
    (run docEx).2 = none ∧
    ∃ m, callsOf (run docEx).1 =
      [ImpName.protein, ImpName.gene, ImpName.feature, ImpName.reference] ++
        List.replicate m ImpName.author ++
        [ImpName.fullname, ImpName.organism] :=
  ⟨rfl, C6_fixed_order docEx rfl⟩

/-! ### C4: the reference-to-author cascade -/

/-- Field extraction succeeds and computes the documented defaults when
the reference's citation is a dictionary. -/
theorem refFields_obj (fs cs : List (String × XVal))
    (hcit : fs.lookup "citation" = some (XVal.obj cs)) :
    refFields (XVal.obj fs) = Except.ok
      (refId (XVal.obj fs), refType (XVal.obj fs), refName (XVal.obj fs)) := by
  cases hk : fs.lookup "@key" <;>
    cases ht : cs.lookup "@type" <;>
      cases hn : cs.lookup "@name" <;>
        simp [refFields, refId, refType, refName, pyContains, getItem,
          getDefault, getOpt, hk, ht, hn, hcit]

/-- On a well-formed author list the author import body emits exactly one
block per person and does not raise. -/
theorem authorBody_ok (as : List (String × XVal)) (ps : List XVal)
    (i t a : XVal)
    (hp : as.lookup "person" = some (XVal.arr ps))
    (hok : ps.all personOk = true) :
    authorBody (XVal.obj as) i t a = (ps.flatMap (authorBlock i t a), none) := by
  unfold authorBody
  have hc : pyContains (XVal.obj as) "person" = true := by
    simp [pyContains, hp]
  rw [if_pos hc]
  have hg : getItem (XVal.obj as) "person" = Except.ok (XVal.arr ps) := by
    simp [getItem, hp]
  rw [hg]
  have hsteps : ∀ x ∈ pyIter (XVal.arr ps),
      authorStep i t a x = (authorBlock i t a x, none) := by
    intro x hx
    have hxok : personOk x = true := by
      rw [List.all_eq_true] at hok
      exact hok x (by simpa [pyIter] using hx)
    unfold personOk at hxok
    rcases e : getItem x "@name" with e1 | v
    · rw [e] at hxok
      simp [isStrOk] at hxok
    · simp [authorStep, authorBlock, nameAt, e]
  have hfor := pyFor_ok (authorStep i t a) (authorBlock i t a)
    (pyIter (XVal.arr ps)) hsteps
  show pyFor (authorStep i t a) (pyIter (XVal.arr ps)) =
    (ps.flatMap (authorBlock i t a), none)
  rw [hfor]
  rfl

/-- C4: for a reference element whose citation carries an author list of N
well-formed person entries, the reference loop iteration creates exactly N
Author nodes and issues exactly N HAS_AUTHOR relationship statements, each
anchored on that reference's own key parameters. -/
theorem C4_author_cascade (fs cs as : List (String × XVal)) (ps : List XVal)
    (hcit : fs.lookup "citation" = some (XVal.obj cs))
    (hal : cs.lookup "authorList" = some (XVal.obj as))
    (hp : as.lookup "person" = some (XVal.arr ps))
    (hok : ps.all personOk = true) :
    (refStep (XVal.obj fs)).2 = none ∧
    (writesOf (refStep (XVal.obj fs)).1).countP isCreateAuthor = ps.length ∧
    (writesOf (refStep (XVal.obj fs)).1).countP isRelHasAuthor = ps.length ∧
    ∀ s ∈ writesOf (refStep (XVal.obj fs)).1, ∀ i2 t2 a2 n2,
      s = Stmt.relHasAuthor i2 t2 a2 n2 →
      i2 = refId (XVal.obj fs) ∧ t2 = refType (XVal.obj fs) ∧
        a2 = refName (XVal.obj fs) := by
  have hrf := refFields_obj fs cs hcit
  have htail : refTail (XVal.obj fs) (refId (XVal.obj fs))
      (refType (XVal.obj fs)) (refName (XVal.obj fs)) =
      insert_author (XVal.obj as) (refId (XVal.obj fs))
        (refType (XVal.obj fs)) (refName (XVal.obj fs)) := by
    unfold refTail
    have hg : getItem (XVal.obj fs) "citation" = Except.ok (XVal.obj cs) := by
      simp [getItem, hcit]
    rw [hg]
    dsimp only
    have hc : pyContains (XVal.obj cs) "authorList" = true := by
      simp [pyContains, hal]
    rw [if_pos hc]
    have hg2 : getItem (XVal.obj cs) "authorList" =
        Except.ok (XVal.obj as) := by
      simp [getItem, hal]
    rw [hg2]
  have hab := authorBody_ok as ps (refId (XVal.obj fs))
    (refType (XVal.obj fs)) (refName (XVal.obj fs)) hp hok
  have hstep : refStep (XVal.obj fs) =
      (Event.write (Stmt.createReference (refId (XVal.obj fs))
          (refType (XVal.obj fs)) (refName (XVal.obj fs))) ::
        Event.write (Stmt.relHasReference qProtein (refId (XVal.obj fs))
          (refType (XVal.obj fs)) (refName (XVal.obj fs))) ::
        (insert_author (XVal.obj as) (refId (XVal.obj fs))
          (refType (XVal.obj fs)) (refName (XVal.obj fs))).1,
       (insert_author (XVal.obj as) (refId (XVal.obj fs))
          (refType (XVal.obj fs)) (refName (XVal.obj fs))).2) := by
    unfold refStep
    rw [hrf]
    dsimp only
    rw [htail]
  have hw : writesOf (refStep (XVal.obj fs)).1 =
      Stmt.createReference (refId (XVal.obj fs)) (refType (XVal.obj fs))
          (refName (XVal.obj fs)) ::
        Stmt.relHasReference qProtein (refId (XVal.obj fs))
          (refType (XVal.obj fs)) (refName (XVal.obj fs)) ::
        ps.flatMap (authorBlock (refId (XVal.obj fs)) (refType (XVal.obj fs))
          (refName (XVal.obj fs))) := by
    rw [hstep]
    show writesOf (_ :: _ :: (insert_author _ _ _ _).1) = _
    have hwa : writesOf (insert_author (XVal.obj as) (refId (XVal.obj fs))
        (refType (XVal.obj fs)) (refName (XVal.obj fs))).1 =
        ps.flatMap (authorBlock (refId (XVal.obj fs)) (refType (XVal.obj fs))
          (refName (XVal.obj fs))) := by
      unfold insert_author
      rw [writesOf_wrapS, hab]
    calc writesOf (Event.write (Stmt.createReference _ _ _) ::
          Event.write (Stmt.relHasReference qProtein _ _ _) ::
          (insert_author (XVal.obj as) (refId (XVal.obj fs))
            (refType (XVal.obj fs)) (refName (XVal.obj fs))).1)
        = Stmt.createReference (refId (XVal.obj fs)) (refType (XVal.obj fs))
            (refName (XVal.obj fs)) ::
          Stmt.relHasReference qProtein (refId (XVal.obj fs))
            (refType (XVal.obj fs)) (refName (XVal.obj fs)) ::
          writesOf (insert_author (XVal.obj as) (refId (XVal.obj fs))
            (refType (XVal.obj fs)) (refName (XVal.obj fs))).1 := rfl
      _ = _ := by rw [hwa]
  have hcnt1 : (ps.flatMap (authorBlock (refId (XVal.obj fs))
      (refType (XVal.obj fs)) (refName (XVal.obj fs)))).countP
        isCreateAuthor = ps.length := by
    have := countP_bind_blocks (authorBlock (refId (XVal.obj fs))
      (refType (XVal.obj fs)) (refName (XVal.obj fs))) (fun _ => true)
      isCreateAuthor (by intro x _; simp [authorBlock, isCreateAuthor])
      (by intro x hx; simp at hx) ps
    simpa using this
  have hcnt2 : (ps.flatMap (authorBlock (refId (XVal.obj fs))
      (refType (XVal.obj fs)) (refName (XVal.obj fs)))).countP
        isRelHasAuthor = ps.length := by
    have := countP_bind_blocks (authorBlock (refId (XVal.obj fs))
      (refType (XVal.obj fs)) (refName (XVal.obj fs))) (fun _ => true)
      isRelHasAuthor (by intro x _; simp [authorBlock, isRelHasAuthor])
      (by intro x hx; simp at hx) ps
    simpa using this
  refine ⟨?_, ?_, ?_, ?_⟩
  · rw [hstep]
    show (insert_author _ _ _ _).2 = none
    unfold insert_author
    rw [wrapS_snd, hab]
  · rw [hw]
    simp [List.countP_cons, isCreateAuthor, hcnt1]
  · rw [hw]
    simp [List.countP_cons, isRelHasAuthor, hcnt2]
  · rw [hw]
    intro s hs i2 t2 a2 n2 heq
    subst heq
    simp only [List.mem_cons] at hs
    rcases hs with hs | hs | hs
    · exact absurd hs (by simp)
    · exact absurd hs (by simp)
    · rw [List.mem_flatMap] at hs
      obtain ⟨p, _, hsp⟩ := hs
      unfold authorBlock at hsp
      simp only [List.mem_cons, List.mem_singleton] at hsp
      rcases hsp with hsp | hsp | hsp
      · exact absurd hsp (by simp)
      · obtain ⟨h1, h2, h3, _⟩ := Stmt.relHasAuthor.inj hsp
        exact ⟨h1, h2, h3⟩
      · simp at hsp

/-- The person list, author list, citation and reference element used as
the concrete cascade example (the same shape as the reference in `docEx`). -/
def psEx : List XVal :=
  [XVal.obj [("@name", XVal.str "Smith J.")],
   XVal.obj [("@name", XVal.str "Lee K.")]]

def alEx : List (String × XVal) :=
  [("person", XVal.arr psEx)]

def citEx : List (String × XVal) :=
  [("@type", XVal.str "journal article"), ("@name", XVal.str "Nature"),
   ("authorList", XVal.obj alEx)]

def refEx : List (String × XVal) :=
  [("@key", XVal.str "1"), ("citation", XVal.obj citEx)]

/-- Witness for C4 at a concrete reference carrying two person entries:
two Author node creations and two HAS_AUTHOR statements. -/
theorem C4_author_cascade_witness :
    (refEx.lookup "citation" = some (XVal.obj citEx) ∧
     citEx.lookup "authorList" = some (XVal.obj alEx) ∧
     alEx.lookup "person" = some (XVal.arr psEx) ∧
     psEx.all personOk = true) ∧
    ((refStep (XVal.obj refEx)).2 = none ∧
     (writesOf (refStep (XVal.obj refEx)).1).countP isCreateAuthor = 2 ∧
     (writesOf (refStep (XVal.obj refEx)).1).countP isRelHasAuthor = 2) := by
  refine ⟨⟨rfl, rfl, rfl, rfl⟩, ?_, ?_, ?_⟩
  · exact (C4_author_cascade refEx citEx alEx psEx rfl rfl rfl rfl).1
  · exact (C4_author_cascade refEx citEx alEx psEx rfl rfl rfl rfl).2.1
  · exact (C4_author_cascade refEx citEx alEx psEx rfl rfl rfl rfl).2.2.1

/-! ### C10: the organism import -/

/-- On a well-formed element one loop iteration of `insert_organism` emits
exactly its block and does not raise. -/
theorem orgStep_eq (g : XVal) (h : orgElemOk g = true) :
    orgStep g = (orgBlock g, none) := by
  unfold orgElemOk at h
  rcases e : getItem g "#text" with e1 | v
  · rw [e] at h
    simp [isStrOk] at h
  · unfold orgStep orgBlock orgMatch fieldIs textOf
    rw [e]
    dsimp only
    by_cases hx : xeqStr v "Homo sapiens" = true
    · rw [if_pos hx, if_pos hx]
    · rw [if_neg hx, if_neg hx]

/-- Everything the organism loop emits carries the constant taxonomy id. -/
theorem orgStep_tax (x : XVal) :
    ∀ s ∈ (orgStep x).1, ∀ v, taxOf s = some v → v = XVal.str "9606" := by
  unfold orgStep
  cases getItem x "#text" with
  | error e => intro s hs; simp at hs
  | ok w =>
    dsimp only
    by_cases hx : xeqStr w "Homo sapiens" = true
    · rw [if_pos hx]
      intro s hs v hv
      simp only [List.mem_cons, List.mem_singleton] at hs
      rcases hs with hs | hs | hs
      · subst hs; simpa [taxOf] using hv.symm
      · subst hs; simpa [taxOf] using hv.symm
      · simp at hs
    · rw [if_neg hx]
      intro s hs
      simp at hs

/-- C10: for every document whose organism name sub-tree is a sequence of
elements with a string `#text` field, the Classification import creates an
Organism node and IN_ORGANISM edge exactly for the elements whose text is
"Homo sapiens"; and on every document whatsoever, every statement the
Classification import issues carries taxonomy_id "9606". -/
theorem C10_organism (doc : XVal) (l : List XVal)
    (hnav : navPath doc ["uniprot", "entry", "organism", "name"] =
      Except.ok (XVal.arr l))
    (hok : l.all orgElemOk = true) :
    (insert_organism doc).2 = none ∧
    writesOf (insert_organism doc).1 = l.flatMap orgBlock ∧
    (writesOf (insert_organism doc).1).countP isCreateOrganism =
      (l.filter orgMatch).length ∧
    (writesOf (insert_organism doc).1).countP isRelInOrganism =
      (l.filter orgMatch).length ∧
    ∀ d : XVal, ∀ s ∈ writesOf (insert_organism d).1, ∀ v,
      taxOf s = some v → v = XVal.str "9606" := by
  have hsteps : ∀ x ∈ pyIter (XVal.arr l), orgStep x = (orgBlock x, none) := by
    intro x hx
    refine orgStep_eq x ?_
    rw [List.all_eq_true] at hok
    exact hok x (by simpa [pyIter] using hx)
  have hfor := pyFor_ok orgStep orgBlock (pyIter (XVal.arr l)) hsteps
  have hbody : loopBody (navPath doc ["uniprot", "entry", "organism", "name"])
      orgStep = (l.flatMap orgBlock, none) := by
    rw [hnav]
    unfold loopBody
    show pyFor orgStep (pyIter (XVal.arr l)) = (l.flatMap orgBlock, none)
    rw [hfor]
    rfl
  have hw : writesOf (insert_organism doc).1 = l.flatMap orgBlock := by
    unfold insert_organism
    rw [writesOf_wrapS, hbody]
  refine ⟨?_, hw, ?_, ?_, ?_⟩
  · unfold insert_organism
    rw [wrapS_snd, hbody]
  · rw [hw]
    refine countP_bind_blocks orgBlock orgMatch isCreateOrganism ?_ ?_ l
    · intro x hm
      simp [orgBlock, hm, isCreateOrganism]
    · intro x hm
      simp [orgBlock, hm]
  · rw [hw]
    refine countP_bind_blocks orgBlock orgMatch isRelInOrganism ?_ ?_ l
    · intro x hm
      simp [orgBlock, hm, isRelInOrganism]
    · intro x hm
      simp [orgBlock, hm]
  · intro d s hs v hv
    unfold insert_organism at hs
    rw [writesOf_wrapS] at hs
    unfold loopBody at hs
    rcases hn : navPath d ["uniprot", "entry", "organism", "name"] with e | w
    · rw [hn] at hs
      simp at hs
    · rw [hn] at hs
      exact pyFor_mem orgStep
        (fun s2 => ∀ v2, taxOf s2 = some v2 → v2 = XVal.str "9606")
        orgStep_tax (pyIter w) s hs v hv

/-- Witness for C10 at the concrete document: one matching element out of
two yields one Organism creation, and the taxonomy constant holds for the
issued statements. -/
theorem C10_organism_witness :
    (navPath docEx ["uniprot", "entry", "organism", "name"] = Except.ok
      (XVal.arr [XVal.obj [("#text", XVal.str "Homo sapiens")],
        XVal.obj [("#text", XVal.str "Human")]])) ∧
    ((insert_organism docEx).2 = none ∧
     (writesOf (insert_organism docEx).1).countP isCreateOrganism = 1 ∧
     (writesOf (insert_organism docEx).1).countP isRelInOrganism = 1) := by
  refine ⟨rfl, ?_, ?_, ?_⟩
  · exact (C10_organism docEx _ rfl rfl).1
  · exact (C10_organism docEx _ rfl rfl).2.2.1
  · exact (C10_organism docEx _ rfl rfl).2.2.2.1

/-! ### C3: absence of optional fields in the filtering logic -/

/-- Field extraction short-circuits to the empty-string defaults, without
raising, when the reference has no `citation` at all. -/
theorem refFields_no_citation (fs : List (String × XVal))
    (h : fs.lookup "citation" = none) :
    refFields (XVal.obj fs) =
      Except.ok (refId (XVal.obj fs), XVal.str "", XVal.str "") := by
  cases hk : fs.lookup "@key" <;>
    simp [refFields, refId, pyContains, getItem, getDefault, getOpt, hk, h]

/-- C3 counterexample: a gene-name element whose optional `@type`
attribute is absent makes the gene selection predicate raise a KeyError,
which propagates out of `insert_gene` — absence is not treated as a
non-match there. -/
theorem C3_counterexample :
    genePred (XVal.obj [("#text", XVal.str "HNF3B")]) =
      Except.error (PyErr.keyError "@type") ∧
    (insert_gene docBadGene).2 = some (PyErr.keyError "@type") :=
  ⟨rfl, rfl⟩

/-- C3 amended: the feature positional predicate treats an absent
`position` as a non-match without raising, and the reference citation
lookups default to the empty string without raising when `citation` is
absent; but the gene predicate propagates the key error of an absent
`@type` (it only avoids touching `#text` when `@type` matches neither
discriminator value). -/
theorem C3_amended :
    (∀ f loc, getItem f "location" = Except.ok (XVal.obj loc) →
      loc.lookup "position" = none → featPred f = Except.ok false) ∧
    (∀ g t1, getItem g "@type" = Except.ok t1 →
      xeqStr t1 "synonym" = false → xeqStr t1 "primary" = false →
      genePred g = Except.ok false) ∧
    (∀ g e, getItem g "@type" = Except.error e →
      genePred g = Except.error e) ∧
    (∀ fs, fs.lookup "citation" = none →
      refFields (XVal.obj fs) =
        Except.ok (refId (XVal.obj fs), XVal.str "", XVal.str "")) := by
  refine ⟨?_, ?_, ?_, fun fs h => refFields_no_citation fs h⟩
  · intro f loc hloc hpos
    unfold featPred
    rw [hloc]
    dsimp only
    have h1 : getDefault (XVal.obj loc) "position" (XVal.obj []) =
        Except.ok (XVal.obj []) := by
      simp [getDefault, hpos]
    rw [h1]
    rfl
  · intro g t1 ht hs hp
    simp [genePred, ht, hs, hp]
  · intro g e ht
    simp [genePred, ht]

/-- Witness for the amended C3: a feature whose location has no position
filters to a non-match; a gene element with a non-matching `@type` and no
`#text` filters to a non-match; a gene element with no `@type` raises; a
reference with no citation defaults its fields. -/
theorem C3_amended_witness :
    (getItem (XVal.obj [("location", XVal.obj [("@begin", XVal.str "1")])])
        "location" = Except.ok (XVal.obj [("@begin", XVal.str "1")]) ∧
     featPred (XVal.obj [("location", XVal.obj [("@begin", XVal.str "1")])]) =
       Except.ok false) ∧
    (genePred (XVal.obj [("@type", XVal.str "chain")]) = Except.ok false) ∧
    (genePred (XVal.obj [("#text", XVal.str "x")]) =
      Except.error (PyErr.keyError "@type")) ∧
    (refFields (XVal.obj [("@key", XVal.str "9")]) =
      Except.ok (XVal.str "9", XVal.str "", XVal.str "")) :=
  ⟨⟨rfl, C3_amended.1 (XVal.obj [("location",
      XVal.obj [("@begin", XVal.str "1")])]) [("@begin", XVal.str "1")]
      rfl rfl⟩,
   C3_amended.2.1 (XVal.obj [("@type", XVal.str "chain")])
     (XVal.str "chain") rfl rfl rfl,
   C3_amended.2.2.1 (XVal.obj [("#text", XVal.str "x")])
     (PyErr.keyError "@type") rfl,
   C3_amended.2.2.2 [("@key", XVal.str "9")] rfl⟩

/-! ### C7: cardinality normalization -/

/-- C7 counterexample: a document whose gene-name child is a single
object is not processed like the one-element sequence of the same
element — iterating the dictionary yields its keys, and the predicate's
subscript on a key string raises a TypeError with nothing created,
whereas the one-element sequence produces one Gene node and edge. -/
theorem C7_counterexample :
    (insert_gene docSingle).2 = some PyErr.typeError ∧
    writesOf (insert_gene docSingle).1 = [] ∧
    (insert_gene docOneList).2 = none ∧
    writesOf (insert_gene docOneList).1 =
      [Stmt.createGene (XVal.str "FOXA2"),
       Stmt.relFromGene qProtein (XVal.str "FOXA2")] :=
  ⟨rfl, rfl, rfl, rfl⟩

/-- C7 amended: the sub-importers apply no cardinality normalization:
the gene import iterates the child element directly, so when the
gene-name child is a single (non-empty) dictionary, iteration runs over
its keys and the predicate raises a TypeError with no node or edge
created, while a one-element sequence of a well-formed element is
processed element-wise. -/
theorem C7_amended :
    (∀ doc k v fs, navPath doc ["uniprot", "entry", "gene", "name"] =
        Except.ok (XVal.obj ((k, v) :: fs)) →
      (insert_gene doc).2 = some PyErr.typeError ∧
      writesOf (insert_gene doc).1 = []) ∧
    (∀ doc g, navPath doc ["uniprot", "entry", "gene", "name"] =
        Except.ok (XVal.arr [g]) → geneElemOk g = true →
      (insert_gene doc).2 = none ∧
      writesOf (insert_gene doc).1 = geneBlock g) := by
  constructor
  · intro doc k v fs hnav
    have hbody : loopBody (navPath doc ["uniprot", "entry", "gene", "name"])
        geneStep = ([], some PyErr.typeError) := by
      rw [hnav]
      rfl
    constructor
    · unfold insert_gene
      rw [wrapS_snd, hbody]
    · unfold insert_gene
      rw [writesOf_wrapS, hbody]
  · intro doc g hnav hok
    have hstep := geneStep_eq g hok
    have hbody : loopBody (navPath doc ["uniprot", "entry", "gene", "name"])
        geneStep = (geneBlock g, none) := by
      rw [hnav]
      unfold loopBody
      show pyFor geneStep (pyIter (XVal.arr [g])) = (geneBlock g, none)
      show pyFor geneStep [g] = (geneBlock g, none)
      unfold pyFor
      rw [hstep]
      simp [pyFor]
    constructor
    · unfold insert_gene
      rw [wrapS_snd, hbody]
    · unfold insert_gene
      rw [writesOf_wrapS, hbody]

/-- Witness for the amended C7 at the two concrete documents. -/
theorem C7_amended_witness :
    (navPath docSingle ["uniprot", "entry", "gene", "name"] =
       Except.ok (XVal.obj [("@type", XVal.str "primary"),
         ("#text", XVal.str "FOXA2")]) ∧
     ((insert_gene docSingle).2 = some PyErr.typeError ∧
      writesOf (insert_gene docSingle).1 = [])) ∧
    (navPath docOneList ["uniprot", "entry", "gene", "name"] =
       Except.ok (XVal.arr [XVal.obj [("@type", XVal.str "primary"),
         ("#text", XVal.str "FOXA2")]]) ∧
     geneElemOk (XVal.obj [("@type", XVal.str "primary"),
       ("#text", XVal.str "FOXA2")]) = true ∧
     ((insert_gene docOneList).2 = none ∧
      writesOf (insert_gene docOneList).1 =
        geneBlock (XVal.obj [("@type", XVal.str "primary"),
          ("#text", XVal.str "FOXA2")]))) :=
  ⟨⟨rfl, C7_amended.1 docSingle "@type" (XVal.str "primary")
      [("#text", XVal.str "FOXA2")] rfl⟩,
   ⟨rfl, rfl, C7_amended.2 docOneList
      (XVal.obj [("@type", XVal.str "primary"),
        ("#text", XVal.str "FOXA2")]) rfl rfl⟩⟩

/-! ### C9: reference import defaults and the missing-citation error -/

/-- C9 counterexample: a reference with no `citation` does get its node
and relationship statements issued with empty-string fields, but the
author-list check then raises KeyError "citation" — an error is raised
for that absence, aborting the reference import. -/
theorem C9_counterexample :
    (insert_reference docNoCit).2 = some (PyErr.keyError "citation") ∧
    writesOf (insert_reference docNoCit).1 =
      [Stmt.createReference (XVal.str "7") (XVal.str "") (XVal.str ""),
       Stmt.relHasReference qProtein (XVal.str "7") (XVal.str "")
         (XVal.str "")] :=
  ⟨rfl, rfl⟩

/-- C9 amended: a Reference node is created unconditionally with absent
`@key`, citation `@type` and citation `@name` replaced by the empty
string in both statements; when the citation is present (as a
dictionary) the element completes without error, but when `citation` is
entirely absent the author-list check raises KeyError "citation" after
the two statements have been issued. -/
theorem C9_amended :
    (∀ fs, fs.lookup "citation" = none →
      refStep (XVal.obj fs) =
        ([Event.write (Stmt.createReference (refId (XVal.obj fs))
            (XVal.str "") (XVal.str "")),
          Event.write (Stmt.relHasReference qProtein (refId (XVal.obj fs))
            (XVal.str "") (XVal.str ""))],
         some (PyErr.keyError "citation"))) ∧
    (∀ fs cs, fs.lookup "citation" = some (XVal.obj cs) →
      cs.lookup "authorList" = none →
      refStep (XVal.obj fs) =
        ([Event.write (Stmt.createReference (refId (XVal.obj fs))
            (refType (XVal.obj fs)) (refName (XVal.obj fs))),
          Event.write (Stmt.relHasReference qProtein (refId (XVal.obj fs))
            (refType (XVal.obj fs)) (refName (XVal.obj fs)))], none)) := by
  constructor
  · intro fs h
    have hrf := refFields_no_citation fs h
    unfold refStep
    rw [hrf]
    dsimp only
    have htail : refTail (XVal.obj fs) (refId (XVal.obj fs)) (XVal.str "")
        (XVal.str "") = ([], some (PyErr.keyError "citation")) := by
      unfold refTail
      have hg : getItem (XVal.obj fs) "citation" =
          Except.error (PyErr.keyError "citation") := by
        simp [getItem, h]
      rw [hg]
    rw [htail]
  · intro fs cs hcit hal
    have hrf := refFields_obj fs cs hcit
    unfold refStep
    rw [hrf]
    dsimp only
    have htail : refTail (XVal.obj fs) (refId (XVal.obj fs))
        (refType (XVal.obj fs)) (refName (XVal.obj fs)) = ([], none) := by
      unfold refTail
      have hg : getItem (XVal.obj fs) "citation" =
          Except.ok (XVal.obj cs) := by
        simp [getItem, hcit]
      rw [hg]
      dsimp only
      have hc : pyContains (XVal.obj cs) "authorList" = false := by
        simp [pyContains, hal]
      rw [if_neg (by simp [hc])]
    rw [htail]

/-- Witness for the amended C9 at two concrete reference elements. -/
theorem C9_amended_witness :
    ([("@key", XVal.str "7")].lookup "citation" = (none : Option XVal) ∧
     refStep (XVal.obj [("@key", XVal.str "7")]) =
       ([Event.write (Stmt.createReference (XVal.str "7") (XVal.str "")
           (XVal.str "")),
         Event.write (Stmt.relHasReference qProtein (XVal.str "7")
           (XVal.str "") (XVal.str ""))],
        some (PyErr.keyError "citation"))) ∧
    ([("citation", XVal.obj [("@type", XVal.str "submission")])].lookup
        "citation" = some (XVal.obj [("@type", XVal.str "submission")]) ∧
     [("@type", XVal.str "submission")].lookup "authorList" =
       (none : Option XVal) ∧
     refStep (XVal.obj [("citation",
         XVal.obj [("@type", XVal.str "submission")])]) =
       ([Event.write (Stmt.createReference (XVal.str "")
           (XVal.str "submission") (XVal.str "")),
         Event.write (Stmt.relHasReference qProtein (XVal.str "")
           (XVal.str "submission") (XVal.str ""))], none)) :=
  ⟨⟨rfl, C9_amended.1 [("@key", XVal.str "7")] rfl⟩,
   ⟨rfl, rfl, C9_amended.2 [("citation",
       XVal.obj [("@type", XVal.str "submission")])]
     [("@type", XVal.str "submission")] rfl rfl⟩⟩

/-! ### C8: session and driver release -/

theorem countP_map_write_eq_zero (p : Event → Bool)
    (hp : ∀ s, p (Event.write s) = false) (l : List Stmt) :
    (l.map Event.write).countP p = 0 := by
  induction l with
  | nil => rfl
  | cons s rest ih => simp [List.countP_cons, hp, ih]

theorem openS_map_write (l : List Stmt) :
    (l.map Event.write).countP isOpenS = 0 :=
  countP_map_write_eq_zero isOpenS (fun _ => rfl) l

theorem closeS_map_write (l : List Stmt) :
    (l.map Event.write).countP isCloseS = 0 :=
  countP_map_write_eq_zero isCloseS (fun _ => rfl) l

theorem openD_map_write (l : List Stmt) :
    (l.map Event.write).countP isOpenD = 0 :=
  countP_map_write_eq_zero isOpenD (fun _ => rfl) l

theorem closeD_map_write (l : List Stmt) :
    (l.map Event.write).countP isCloseD = 0 :=
  countP_map_write_eq_zero isCloseD (fun _ => rfl) l

/-- Any body trace whose sessions balance and whose driver closes do not
exceed its driver opens (with equality on success) yields a wrapped
sub-importer trace that releases its session on both paths but leaks the
driver it opened on the failure path. -/
theorem resourceSafe_wrapE_of (n : ImpName) (b : Trace)
    (h1 : b.1.countP isOpenS = b.1.countP isCloseS)
    (h2 : b.1.countP isCloseD ≤ b.1.countP isOpenD)
    (h3 : b.2 = none → b.1.countP isOpenD = b.1.countP isCloseD) :
    resourceSafe (wrapE n b) := by
  rcases b with ⟨es, oe⟩
  simp only at h1 h2 h3
  cases oe with
  | none =>
    have h4 := h3 rfl
    refine ⟨?_, fun _ => ?_, fun h => absurd rfl h⟩
    · simp [wrapE, List.countP_cons, List.countP_append, isOpenS, isCloseS,
        isOpenD, isCloseD]
      omega
    · simp [wrapE, List.countP_cons, List.countP_append, isOpenS, isCloseS,
        isOpenD, isCloseD]
      omega
  | some e =>
    refine ⟨?_, fun h => by simp [wrapE] at h, fun _ => ?_⟩
    · simp [wrapE, List.countP_cons, List.countP_append, isOpenS, isCloseS,
        isOpenD, isCloseD]
      omega
    · simp [wrapE, List.countP_cons, List.countP_append, isOpenS, isCloseS,
        isOpenD, isCloseD]
      omega

/-- A write-only-bodied sub-importer trace is resource safe. -/
theorem resourceSafe_wrapS (n : ImpName) (b : List Stmt × Option PyErr) :
    resourceSafe (wrapS n b) := by
  unfold wrapS
  refine resourceSafe_wrapE_of n (b.1.map Event.write, b.2) ?_ ?_ ?_
  · exact (openS_map_write b.1).trans (closeS_map_write b.1).symm
  · exact le_of_eq ((closeD_map_write b.1).trans (openD_map_write b.1).symm)
  · intro _
    exact (openD_map_write b.1).trans (closeD_map_write b.1).symm

theorem closeD_le_openD_of (tr : Trace) (h : resourceSafe tr) :
    tr.1.countP isCloseD ≤ tr.1.countP isOpenD := by
  rcases tr with ⟨es, oe⟩
  cases oe with
  | none => exact le_of_eq (h.2.1 rfl).symm
  | some e => exact le_of_lt (h.2.2 (by simp))

theorem refStep_counts (x : XVal) :
    (refStep x).1.countP isOpenS = (refStep x).1.countP isCloseS ∧
    (refStep x).1.countP isCloseD ≤ (refStep x).1.countP isOpenD ∧
    ((refStep x).2 = none →
      (refStep x).1.countP isOpenD = (refStep x).1.countP isCloseD) := by
  unfold refStep
  cases refFields x with
  | error e => exact ⟨rfl, le_refl 0, fun h => by simp at h⟩
  | ok itn =>
    obtain ⟨i, t, n⟩ := itn
    dsimp only
    have hw : ∀ p : Event → Bool, p (Event.write (Stmt.createReference i t n)) = false →
        p (Event.write (Stmt.relHasReference qProtein i t n)) = false →
        (Event.write (Stmt.createReference i t n) ::
          Event.write (Stmt.relHasReference qProtein i t n) ::
          (refTail x i t n).1).countP p = (refTail x i t n).1.countP p := by
      intro p hp1 hp2
      simp [List.countP_cons, hp1, hp2]
    rw [hw isOpenS rfl rfl, hw isCloseS rfl rfl, hw isOpenD rfl rfl,
      hw isCloseD rfl rfl]
    unfold refTail
    cases getItem x "citation" with
    | error e => exact ⟨rfl, le_refl 0, fun h => by simp at h⟩
    | ok cv =>
      dsimp only
      by_cases hal : pyContains cv "authorList" = true
      · rw [if_pos hal]
        cases getItem cv "authorList" with
        | error e => exact ⟨rfl, le_refl 0, fun h => by simp at h⟩
        | ok al =>
          have hrs : resourceSafe (insert_author al i t n) := by
            unfold insert_author
            exact resourceSafe_wrapS _ _
          exact ⟨hrs.1, closeD_le_openD_of _ hrs, fun h => hrs.2.1 h⟩
      · rw [if_neg hal]
        exact ⟨rfl, le_refl 0, fun _ => rfl⟩

theorem refFor_counts : ∀ l : List XVal,
    (pyFor refStep l).1.countP isOpenS = (pyFor refStep l).1.countP isCloseS ∧
    (pyFor refStep l).1.countP isCloseD ≤ (pyFor refStep l).1.countP isOpenD ∧
    ((pyFor refStep l).2 = none →
      (pyFor refStep l).1.countP isOpenD =
        (pyFor refStep l).1.countP isCloseD) := by
  intro l
  induction l with
  | nil => exact ⟨rfl, le_refl 0, fun _ => rfl⟩
  | cons x xs ih =>
    unfold pyFor
    rcases hfx : refStep x with ⟨es, oe⟩
    have hx := refStep_counts x
    rw [hfx] at hx
    simp only at hx
    obtain ⟨hx1, hx2, hx3⟩ := hx
    obtain ⟨ih1, ih2, ih3⟩ := ih
    cases oe with
    | some e =>
      exact ⟨hx1, hx2, fun h => by simp at h⟩
    | none =>
      have hx4 := hx3 rfl
      refine ⟨?_, ?_, ?_⟩
      · simp [List.countP_append, hx1, ih1]
      · simp [List.countP_append]
        omega
      · intro h
        simp only at h
        have := ih3 h
        simp [List.countP_append]
        omega

theorem resourceSafe_insert_reference (doc : XVal) :
    resourceSafe (insert_reference doc) := by
  unfold insert_reference
  refine resourceSafe_wrapE_of _ _ ?_ ?_ ?_
  all_goals
    unfold loopBody
    cases navPath doc ["uniprot", "entry", "reference"] with
    | error e => first | rfl | exact le_refl 0 | exact fun h => by simp at h
    | ok v => first
      | exact (refFor_counts (pyIter v)).1
      | exact (refFor_counts (pyIter v)).2.1
      | exact (refFor_counts (pyIter v)).2.2

/-- C8 counterexample: on a document whose gene-name element lacks
`@type`, the gene sub-importer fails; its session is opened and closed
once, but the driver it opened is never closed — the acquired
connection resource is not released on the failure path. -/
theorem C8_counterexample :
    (insert_gene docBadGene).2 = some (PyErr.keyError "@type") ∧
    (insert_gene docBadGene).1.countP isOpenS = 1 ∧
    (insert_gene docBadGene).1.countP isCloseS = 1 ∧
    (insert_gene docBadGene).1.countP isOpenD = 1 ∧
    (insert_gene docBadGene).1.countP isCloseD = 0 :=
  ⟨rfl, rfl, rfl, rfl, rfl⟩

/-- C8 amended: every sub-importer acquires its own driver and session;
the session (a `with` block) is released on both the success and the
failure path, but `close_database` is skipped when the body raises, so
on the failure path strictly fewer drivers are closed than opened. -/
theorem C8_amended (doc al i t a : XVal) :
    resourceSafe (insert_protein doc) ∧
    resourceSafe (insert_gene doc) ∧
    resourceSafe (insert_feature doc) ∧
    resourceSafe (insert_reference doc) ∧
    resourceSafe (insert_author al i t a) ∧
    resourceSafe (insert_fullname doc) ∧
    resourceSafe (insert_organism doc) := by
  refine ⟨?_, ?_, ?_, resourceSafe_insert_reference doc, ?_, ?_, ?_⟩
  · unfold insert_protein
    exact resourceSafe_wrapS _ _
  · unfold insert_gene
    exact resourceSafe_wrapS _ _
  · unfold insert_feature
    exact resourceSafe_wrapS _ _
  · unfold insert_author
    exact resourceSafe_wrapS _ _
  · unfold insert_fullname
    exact resourceSafe_wrapS _ _
  · unfold insert_organism
    exact resourceSafe_wrapS _ _

/-- Witness for the amended C8: on the concrete failing document the gene
sub-importer's failure path leaks the driver, while the protein
sub-importer's success path balances it. -/
theorem C8_amended_witness :
    (insert_gene docBadGene).2 ≠ none ∧
    (insert_gene docBadGene).1.countP isCloseD <
      (insert_gene docBadGene).1.countP isOpenD ∧
    (insert_protein docBadGene).2 = none ∧
    (insert_protein docBadGene).1.countP isOpenD =
      (insert_protein docBadGene).1.countP isCloseD := by
  have hne : (insert_gene docBadGene).2 ≠ none := by
    rw [show (insert_gene docBadGene).2 = some (PyErr.keyError "@type")
      from rfl]
    simp
  have hC := C8_amended docBadGene (XVal.str "") (XVal.str "") (XVal.str "")
    (XVal.str "")
  exact ⟨hne, hC.2.1.2.2 hne, rfl, hC.1.2.1 rfl⟩

end XmlNeo
